import Mathlib

/-!
Verification development for the openclaw agent-tool repository.

The repository defines four "tools" (Linear, GitHub, ElevenLabs, OpenAI),
each a stateless `execute` function that validates parameters, reads one
credential from the process environment, makes at most two HTTP requests
through a per-provider transport helper, and wraps every outcome into a
uniform `{content, details}` envelope.

This file shallowly embeds those four `execute` functions and their
transport helpers.  JavaScript runtime values that flow through the code
are modelled as follows:
- JSON documents are the inductive `Json` (numbers as `Rat`);
- invocation arguments are a map `String → Option Value`;
- the process environment is a map `String → Option String`;
- the network is an oracle `Nat → FetchResult` giving the outcome of the
  n-th `fetch` of the invocation; every issued request is logged;
- a JavaScript exception is the `Except.error` branch; the `try/catch`
  of each `execute` is the total function `finishExecute` applied to a
  `DispatchOut` value, mirroring that every throw inside the `try` block
  is converted to an error envelope.
-/

namespace OpenClaw

/-- JSON value tree.  Object fields keep their construction order, the way
JavaScript object literals and `JSON.parse` results do. -/
inductive Json where
  | null : Json
  | bool (b : Bool) : Json
  | num (q : Rat) : Json
  | str (s : String) : Json
  | arr (elems : List Json) : Json
  | obj (fields : List (String × Json)) : Json

/-- Field lookup in a JSON object's field list (first match). -/
def lookupField : List (String × Json) → String → Option Json
  | [], _ => none
  | (k, v) :: fs, key => if k = key then some v else lookupField fs key

/-- Property access `j[key]` on a JSON value; `none` for non-objects,
matching JavaScript's `undefined`. -/
def Json.lookup : Json → String → Option Json
  | .obj fs, key => lookupField fs key
  | _, _ => none

/-- The character `\x7b` (left brace). -/
def lbraceC : Char := Char.ofNat 123
/-- The character `\x7d` (right brace). -/
def rbraceC : Char := Char.ofNat 125
/-- The character `[`. -/
def lbrackC : Char := Char.ofNat 91
/-- The character `]`. -/
def rbrackC : Char := Char.ofNat 93
/-- The character `"`. -/
def quoteC : Char := Char.ofNat 34
/-- The character `\`. -/
def backslashC : Char := Char.ofNat 92
/-- The character `:`. -/
def colonC : Char := Char.ofNat 58
/-- The character `,`. -/
def commaC : Char := Char.ofNat 44

/-- JSON whitespace. -/
def wsChar (c : Char) : Bool :=
  c = ' ' || c = Char.ofNat 10 || c = Char.ofNat 9 || c = Char.ofNat 13

/-- Skip leading JSON whitespace. -/
def skipWs : List Char → List Char
  | [] => []
  | c :: cs => if wsChar c then skipWs cs else c :: cs

/-- Decimal digit test. -/
def isDigitC (c : Char) : Bool := 48 ≤ c.toNat && c.toNat ≤ 57

/-- Hex digit value, if any. -/
def hexVal (c : Char) : Option Nat :=
  if 48 ≤ c.toNat && c.toNat ≤ 57 then some (c.toNat - 48)
  else if 65 ≤ c.toNat && c.toNat ≤ 70 then some (c.toNat - 55)
  else if 97 ≤ c.toNat && c.toNat ≤ 102 then some (c.toNat - 87)
  else none

/-- Body of a JSON string after the opening quote: the decoded string and
the rest of the input after the closing quote. -/
def parseStringBody : List Char → Except String (String × List Char)
  | [] => .error "Unterminated string in JSON"
  | c :: cs =>
    if c = quoteC then .ok ("", cs)
    else if c = backslashC then
      match cs with
      | [] => .error "Unterminated string in JSON"
      | e :: cs' =>
        if e = quoteC || e = backslashC || e = '/' then
          match parseStringBody cs' with
          | .error m => .error m
          | .ok (s, r) => .ok (String.singleton e ++ s, r)
        else if e = 'b' then
          match parseStringBody cs' with
          | .error m => .error m
          | .ok (s, r) => .ok (String.singleton (Char.ofNat 8) ++ s, r)
        else if e = 'f' then
          match parseStringBody cs' with
          | .error m => .error m
          | .ok (s, r) => .ok (String.singleton (Char.ofNat 12) ++ s, r)
        else if e = 'n' then
          match parseStringBody cs' with
          | .error m => .error m
          | .ok (s, r) => .ok (String.singleton (Char.ofNat 10) ++ s, r)
        else if e = 'r' then
          match parseStringBody cs' with
          | .error m => .error m
          | .ok (s, r) => .ok (String.singleton (Char.ofNat 13) ++ s, r)
        else if e = 't' then
          match parseStringBody cs' with
          | .error m => .error m
          | .ok (s, r) => .ok (String.singleton (Char.ofNat 9) ++ s, r)
        else if e = 'u' then
          match cs' with
          | h1 :: h2 :: h3 :: h4 :: cs'' =>
            match hexVal h1, hexVal h2, hexVal h3, hexVal h4 with
            | some a, some b, some c3, some d =>
              match parseStringBody cs'' with
              | .error m => .error m
              | .ok (s, r) =>
                .ok (String.singleton (Char.ofNat (a * 4096 + b * 256 + c3 * 16 + d)) ++ s, r)
            | _, _, _, _ => .error "Bad Unicode escape in JSON"
          | _ => .error "Bad Unicode escape in JSON"
        else .error "Bad escape in JSON"
    else
      match parseStringBody cs with
      | .error m => .error m
      | .ok (s, r) => .ok (String.singleton c ++ s, r)

/-- Digits at the head of the input, most significant first. -/
def takeDigits : List Char → List Char × List Char
  | [] => ([], [])
  | c :: cs =>
    if isDigitC c then
      let (ds, r) := takeDigits cs
      (c :: ds, r)
    else ([], c :: cs)

/-- Numeric value of a digit list. -/
def digitsVal : List Char → Nat
  | [] => 0
  | c :: cs => (c.toNat - 48) * 10 ^ cs.length + digitsVal cs

/-- A strict JSON number (grammar `-? int frac? exp?`, no leading zeros),
returned as a rational together with the rest of the input. -/
def parseNumber (cs0 : List Char) : Except String (Rat × List Char) :=
  let (negSign, cs1) :=
    match cs0 with
    | c :: cs => if c = '-' then (true, cs) else (false, cs0)
    | [] => (false, cs0)
  match takeDigits cs1 with
  | ([], _) => .error "Unexpected token in JSON"
  | (d :: ds, cs2) =>
    if d = '0' && ds ≠ [] then .error "Unexpected number in JSON"
    else
      let intPart : Nat := digitsVal (d :: ds)
      let (fracDigits, cs3) :=
        match cs2 with
        | c :: cs => if c = '.' then takeDigits cs else ([], cs2)
        | [] => ([], cs2)
      if cs3.length ≠ cs2.length && fracDigits = [] then .error "Unexpected number in JSON"
      else
        let (expVal, cs4) : Int × List Char :=
          match cs3 with
          | c :: cs =>
            if c = 'e' || c = 'E' then
              let (eSign, csE) :=
                match cs with
                | e :: es => if e = '-' then (true, es) else if e = '+' then (false, es) else (false, cs)
                | [] => (false, cs)
              match takeDigits csE with
              | ([], _) => ((0 : Int), cs3)
              | (es, csR) => (if eSign then -(digitsVal es : Int) else (digitsVal es : Int), csR)
            else ((0 : Int), cs3)
          | [] => ((0 : Int), cs3)
        let mantissa : Rat :=
          (intPart : Rat) + (digitsVal fracDigits : Rat) / ((10 : Rat) ^ fracDigits.length)
        let signed : Rat := if negSign then -mantissa else mantissa
        let scaled : Rat :=
          if expVal ≥ 0 then signed * (10 : Rat) ^ expVal.toNat
          else signed / (10 : Rat) ^ (-expVal).toNat
        .ok (scaled, cs4)

/-- Match an exact literal tail (e.g. `rue` after `t`). -/
def expectLit : List Char → Json → List Char → Except String (Json × List Char)
  | [], j, cs => .ok (j, cs)
  | _ :: _, _, [] => .error "Unexpected end of JSON input"
  | l :: ls, j, c :: cs =>
    if c = l then expectLit ls j cs else .error "Unexpected token in JSON"

mutual

/-- One strict JSON value at the head of the input (fuelled recursion; the
fuel only bounds nesting/element recursion and is always supplied large
enough at the `jsonParse` entry point).  Mirrors the grammar accepted by
JavaScript's `JSON.parse`: in particular object keys must be
double-quoted, which is what makes the Linear `listIssues` filter
fragment unparseable. -/
def parseValue : Nat → List Char → Except String (Json × List Char)
  | 0, _ => .error "JSON structure too deeply nested"
  | k + 1, cs =>
    match cs with
    | [] => .error "Unexpected end of JSON input"
    | c :: cs' =>
      if c = lbraceC then
        match skipWs cs' with
        | [] => .error "Unexpected end of JSON input"
        | d :: ds =>
          if d = rbraceC then .ok (.obj [], ds)
          else if d = quoteC then
            match parseStringBody ds with
            | .error m => .error m
            | .ok (key, r1) =>
              match skipWs r1 with
              | [] => .error "Unexpected end of JSON input"
              | c2 :: r2 =>
                if c2 = colonC then
                  match parseValue k (skipWs r2) with
                  | .error m => .error m
                  | .ok (v, r3) => parseObjTail k [(key, v)] (skipWs r3)
                else .error "Expected colon in JSON object"
          else .error "Expected property name or end of object in JSON"
      else if c = lbrackC then
        match skipWs cs' with
        | [] => .error "Unexpected end of JSON input"
        | d :: ds =>
          if d = rbrackC then .ok (.arr [], ds)
          else
            match parseValue k (d :: ds) with
            | .error m => .error m
            | .ok (v, r1) => parseArrTail k [v] (skipWs r1)
      else if c = quoteC then
        match parseStringBody cs' with
        | .error m => .error m
        | .ok (s, r) => .ok (.str s, r)
      else if c = 't' then expectLit ['r', 'u', 'e'] (.bool true) cs'
      else if c = 'f' then expectLit ['a', 'l', 's', 'e'] (.bool false) cs'
      else if c = 'n' then expectLit ['u', 'l', 'l'] .null cs'
      else
        match parseNumber (c :: cs') with
        | .error m => .error m
        | .ok (q, r) => .ok (.num q, r)

/-- Remaining members of a JSON object after the first `key: value`. -/
def parseObjTail : Nat → List (String × Json) → List Char → Except String (Json × List Char)
  | 0, _, _ => .error "JSON structure too deeply nested"
  | k + 1, acc, cs =>
    match cs with
    | [] => .error "Unexpected end of JSON input"
    | c :: cs' =>
      if c = rbraceC then .ok (.obj acc, cs')
      else if c = commaC then
        match skipWs cs' with
        | [] => .error "Unexpected end of JSON input"
        | d :: ds =>
          if d = quoteC then
            match parseStringBody ds with
            | .error m => .error m
            | .ok (key, r1) =>
              match skipWs r1 with
              | [] => .error "Unexpected end of JSON input"
              | c2 :: r2 =>
                if c2 = colonC then
                  match parseValue k (skipWs r2) with
                  | .error m => .error m
                  | .ok (v, r3) => parseObjTail k (acc ++ [(key, v)]) (skipWs r3)
                else .error "Expected colon in JSON object"
          else .error "Expected property name in JSON"
      else .error "Expected comma or end of object in JSON"

/-- Remaining elements of a JSON array after the first one. -/
def parseArrTail : Nat → List Json → List Char → Except String (Json × List Char)
  | 0, _, _ => .error "JSON structure too deeply nested"
  | k + 1, acc, cs =>
    match cs with
    | [] => .error "Unexpected end of JSON input"
    | c :: cs' =>
      if c = rbrackC then .ok (.arr acc, cs')
      else if c = commaC then
        match parseValue k (skipWs cs') with
        | .error m => .error m
        | .ok (v, r1) => parseArrTail k (acc ++ [v]) (skipWs r1)
      else .error "Expected comma or end of array in JSON"

end

/-- The JavaScript builtin `JSON.parse`: strict JSON only; a `.error`
models the thrown `SyntaxError`. -/
def jsonParse (s : String) : Except String Json :=
  match parseValue (Nat.succ s.length) (skipWs s.data) with
  | .error m => .error m
  | .ok (j, rest) =>
    match skipWs rest with
    | [] => .ok j
    | _ :: _ => .error "Unexpected non-whitespace character after JSON data"

mutual

/-- Compact JSON rendering (the model's `JSON.stringify`; whitespace and
numeral formatting are abstracted — no claim inspects rendered text). -/
def Json.render : Json → String
  | .null => "null"
  | .bool true => "true"
  | .bool false => "false"
  | .num q => toString q
  | .str s => String.singleton quoteC ++ s ++ String.singleton quoteC
  | .arr elems => String.singleton lbrackC ++ Json.renderArr elems ++ String.singleton rbrackC
  | .obj fields => String.singleton lbraceC ++ Json.renderObj fields ++ String.singleton rbraceC

/-- Render array elements, comma separated. -/
def Json.renderArr : List Json → String
  | [] => ""
  | [x] => Json.render x
  | x :: y :: xs => Json.render x ++ "," ++ Json.renderArr (y :: xs)

/-- Render object fields, comma separated. -/
def Json.renderObj : List (String × Json) → String
  | [] => ""
  | [(k, v)] => String.singleton quoteC ++ k ++ String.singleton quoteC ++ ":" ++ Json.render v
  | (k, v) :: f :: fs =>
    String.singleton quoteC ++ k ++ String.singleton quoteC ++ ":" ++ Json.render v ++ ","
      ++ Json.renderObj (f :: fs)

end

/-- A runtime value supplied as an invocation argument (the relevant
subset of JavaScript values for these schemas: strings, numbers,
booleans). -/
inductive Value where
  | str (s : String) : Value
  | num (q : Rat) : Value
  | bool (b : Bool) : Value
deriving DecidableEq

/-- Invocation arguments: parameter name to supplied value. -/
abbrev Params := String → Option Value

/-- The process environment (`process.env`). -/
abbrev Env := String → Option String

/-- JavaScript truthiness of a possibly-absent value. -/
def jsTruthy : Option Value → Bool
  | none => false
  | some (.str s) => s ≠ ""
  | some (.num q) => q ≠ 0
  | some (.bool b) => b

/-- Template-literal interpolation of a value (numeral formatting
abstracted; no claim inspects interpolated numbers). -/
def Value.render : Value → String
  | .str s => s
  | .num q => toString q
  | .bool true => "true"
  | .bool false => "false"

/-- Interpolation of a possibly-absent value (`undefined` prints as the
string `undefined`). -/
def renderOpt : Option Value → String
  | none => "undefined"
  | some v => v.render

/-- A value embedded into a JSON request body. -/
def Value.toJson : Value → Json
  | .str s => .str s
  | .num q => .num q
  | .bool b => .bool b

/-- Modelled from the spec: `readStringParam` lives in
`src/agents/tools/common.ts`, which is not under `src/`.  Spec §4.1:
validation "produce[s] typed, defaulted values or fail[s] before any
network call"; an optional string parameter that is missing, empty or
not a string is treated as absent.  This is the `required:false` reading
used at every optional call site. -/
def readStringParamOpt (params : Params) (key : String) : Option String :=
  match params key with
  | some (.str s) => if s = "" then none else some s
  | _ => none

/-- Modelled from the spec: the `required:true` reading of
`readStringParam` (same missing source file).  Spec §4.1: "A required
string parameter missing or empty triggers an immediate failure surfaced
as part of the envelope's error text", and §7: validation errors are
"reported with the offending parameter name embedded in the message";
the failure is a thrown error (`.error`) whose message names the key. -/
def readStringParamReq (params : Params) (key : String) : Except String String :=
  match readStringParamOpt params key with
  | some s => .ok s
  | none => .error (key ++ " parameter is required")

/-- Read of a credential from the environment with JavaScript truthiness
(`if (!token)`): unset and empty string both count as missing. -/
def envCred (env : Env) (name : String) : Option String :=
  match env name with
  | some t => if t = "" then none else some t
  | none => none

/-- An outbound HTTP request as constructed by the tools.  Multipart form
data bodies are modelled structurally as a JSON object of their fields
(filenames and the multipart encoding itself are abstracted). -/
structure Request where
  url : String
  method : String
  headers : List (String × String)
  body : Option Json

/-- An HTTP response as observed through the `fetch` API.  `textBody` is
the `response.text()` view; `jsonBody` is the `response.json()` view,
`none` meaning the body is not valid JSON (so `response.json()` throws);
`bodyBase64` abstracts the base64 encoding of the binary body. -/
structure HTTPResponse where
  status : Nat
  contentType : Option String
  textBody : String
  jsonBody : Option Json
  bodyBase64 : String

/-- The `Response.ok` flag: status in the 200–299 range. -/
def HTTPResponse.ok (r : HTTPResponse) : Bool :=
  200 ≤ r.status && r.status ≤ 299

/-- Outcome of one `fetch` call: the promise rejects (network/transport
failure, modelled as a thrown message) or resolves to a response. -/
inductive FetchResult where
  | thrown (msg : String) : FetchResult
  | resp (r : HTTPResponse) : FetchResult

/-- Per-invocation network state: the oracle giving the outcome of the
n-th fetch, how many fetches have been issued, and the log of issued
requests in order. -/
structure Netw where
  oracle : Nat → FetchResult
  count : Nat
  log : List Request

/-- Fresh network state at the start of an invocation. -/
def Netw.init (oracle : Nat → FetchResult) : Netw := ⟨oracle, 0, []⟩

/-- One `fetch` call: consult the oracle, count and log the request. -/
def fetchM (req : Request) (w : Netw) : Except String HTTPResponse × Netw :=
  let out := w.oracle w.count
  let w' : Netw := ⟨w.oracle, w.count + 1, w.log ++ [req]⟩
  match out with
  | .thrown m => (.error m, w')
  | .resp r => (.ok r, w')

/-- One `{type, text}` block of an envelope's content. -/
structure ContentBlock where
  type : String
  text : String

/-- The uniform result envelope every tool returns. -/
structure Envelope where
  content : List ContentBlock
  details : List (String × Json)

/-- How a dispatch branch inside the `try` block ends: a direct `return`
of an envelope, falling through with `result` set, or a thrown error
(caught by the tool's single outer `catch`). -/
inductive DispatchOut where
  | ret (e : Envelope) : DispatchOut
  | res (j : Json) : DispatchOut
  | thrown (msg : String) : DispatchOut

/-- Lift a transport-helper outcome into a dispatch outcome: a helper
error is a thrown exception, a helper value becomes `result`. -/
def reqOut : Except String Json × Netw → DispatchOut × Netw
  | (.error m, w) => (.thrown m, w)
  | (.ok j, w) => (.res j, w)

/-- The tail of every `execute`: the success-envelope return after the
switch, and the outer `catch` turning any thrown error into the uniform
error envelope.  The direct-return branches pass through unchanged. -/
def finishExecute (label : String) (action : String) : DispatchOut → Envelope
  | .ret e => e
  | .res j => ⟨[⟨"text", Json.render j⟩], [("action", .str action), ("success", .bool true)]⟩
  | .thrown m =>
    ⟨[⟨"text", label ++ " error: " ++ m⟩], [("action", .str action), ("error", .str m)]⟩

/-- Does `sub` occur at the head of `s`? -/
def subSetsOffAt : List Char → List Char → Bool
  | [], _ => true
  | _ :: _, [] => false
  | a :: as, b :: bs => a = b && subSetsOffAt as bs

/-- Does `sub` occur anywhere in `s`? -/
def hasSubList (sub : List Char) : List Char → Bool
  | [] => subSetsOffAt sub []
  | c :: cs => subSetsOffAt sub (c :: cs) || hasSubList sub cs

/-- Substring test on strings (used to state "the text names X"). -/
def containsSub (s sub : String) : Bool := hasSubList sub.data s.data

/-- The JavaScript builtin `encodeURIComponent`: UTF-8 percent-encoding
of every character outside the unreserved set. -/
def utf8Bytes (c : Char) : List Nat :=
  let n := c.toNat
  if n < 128 then [n]
  else if n < 2048 then [192 + n / 64, 128 + n % 64]
  else if n < 65536 then [224 + n / 4096, 128 + n / 64 % 64, 128 + n % 64]
  else [240 + n / 262144, 128 + n / 4096 % 64, 128 + n / 64 % 64, 128 + n % 64]

/-- Upper-case hex digit. -/
def hexDigitC (n : Nat) : Char := if n < 10 then Char.ofNat (48 + n) else Char.ofNat (55 + n)

/-- `encodeURIComponent`'s unreserved characters. -/
def uriUnreserved (c : Char) : Bool :=
  (65 ≤ c.toNat && c.toNat ≤ 90) || (97 ≤ c.toNat && c.toNat ≤ 122)
    || (48 ≤ c.toNat && c.toNat ≤ 57)
    || c = '-' || c = '_' || c = '.' || c = '!' || c = '~' || c = '*'
    || c = Char.ofNat 39 || c = Char.ofNat 40 || c = Char.ofNat 41

/-- Percent-encode one character. -/
def encChar (c : Char) : String :=
  if uriUnreserved c then String.singleton c
  else
    String.join ((utf8Bytes c).map fun b =>
      "%" ++ String.singleton (hexDigitC (b / 16)) ++ String.singleton (hexDigitC (b % 16)))

/-- The JavaScript builtin `encodeURIComponent`. -/
def encodeURIComponent (s : String) : String := String.join (s.data.map encChar)

/-! ### GitHub tool (`github-tool.ts`) -/

/-- `githubRequest`: the GitHub transport helper.  One fetch against
`https://api.github.com`; non-ok status throws
`GitHub API error (<status>): <body text>`; otherwise the JSON body. -/
def githubRequest (endpoint : String) (token : String) (method : String) (body : Option Json)
    (w : Netw) : Except String Json × Netw :=
  let headers :=
    [("Authorization", "Bearer " ++ token), ("Accept", "application/vnd.github+json"),
      ("X-GitHub-Api-Version", "2022-11-28")]
      ++ (match body with | some _ => [("Content-Type", "application/json")] | none => [])
  match fetchM ⟨"https://api.github.com" ++ endpoint, method, headers, body⟩ w with
  | (.error e, w') => (.error e, w')
  | (.ok r, w') =>
    if r.ok then
      match r.jsonBody with
      | some j => (.ok j, w')
      | none => (.error "Unexpected end of JSON input", w')
    else (.error ("GitHub API error (" ++ toString r.status ++ "): " ++ r.textBody), w')

/-- The `switch (action)` inside the GitHub tool's `execute`. -/
def githubDispatch (action : String) (params : Params) (token : String) (w : Netw) :
    DispatchOut × Netw :=
  let owner? := readStringParamOpt params "owner"
  let repo? := readStringParamOpt params "repo"
  let state := (readStringParamOpt params "state").getD "open"
  match action with
  | "getRepo" =>
    match owner? with
    | none => (.thrown "owner and repo are required for getRepo", w)
    | some owner =>
      match repo? with
      | none => (.thrown "owner and repo are required for getRepo", w)
      | some repo =>
        reqOut (githubRequest ("/repos/" ++ owner ++ "/" ++ repo) token "GET" none w)
  | "listIssues" =>
    match owner? with
    | none => (.thrown "owner and repo are required for listIssues", w)
    | some owner =>
      match repo? with
      | none => (.thrown "owner and repo are required for listIssues", w)
      | some repo =>
        reqOut (githubRequest
          ("/repos/" ++ owner ++ "/" ++ repo ++ "/issues?state=" ++ state ++ "&per_page=30")
          token "GET" none w)
  | "getIssue" =>
    match owner? with
    | none => (.thrown "owner and repo are required for getIssue", w)
    | some owner =>
      match repo? with
      | none => (.thrown "owner and repo are required for getIssue", w)
      | some repo =>
        if !jsTruthy (params "number") then (.thrown "number is required for getIssue", w)
        else
          reqOut (githubRequest
            ("/repos/" ++ owner ++ "/" ++ repo ++ "/issues/" ++ renderOpt (params "number"))
            token "GET" none w)
  | "createIssue" =>
    match owner? with
    | none => (.thrown "owner and repo are required for createIssue", w)
    | some owner =>
      match repo? with
      | none => (.thrown "owner and repo are required for createIssue", w)
      | some repo =>
        match readStringParamReq params "title" with
        | .error m => (.thrown m, w)
        | .ok title =>
          let body? := readStringParamOpt params "body"
          reqOut (githubRequest ("/repos/" ++ owner ++ "/" ++ repo ++ "/issues") token "POST"
            (some (.obj ([("title", .str title)]
              ++ (match body? with | some b => [("body", .str b)] | none => [])))) w)
  | "listPRs" =>
    match owner? with
    | none => (.thrown "owner and repo are required for listPRs", w)
    | some owner =>
      match repo? with
      | none => (.thrown "owner and repo are required for listPRs", w)
      | some repo =>
        reqOut (githubRequest
          ("/repos/" ++ owner ++ "/" ++ repo ++ "/pulls?state=" ++ state ++ "&per_page=30")
          token "GET" none w)
  | "getPR" =>
    match owner? with
    | none => (.thrown "owner and repo are required for getPR", w)
    | some owner =>
      match repo? with
      | none => (.thrown "owner and repo are required for getPR", w)
      | some repo =>
        if !jsTruthy (params "number") then (.thrown "number is required for getPR", w)
        else
          reqOut (githubRequest
            ("/repos/" ++ owner ++ "/" ++ repo ++ "/pulls/" ++ renderOpt (params "number"))
            token "GET" none w)
  | "searchCode" =>
    match readStringParamReq params "query" with
    | .error m => (.thrown m, w)
    | .ok query =>
      reqOut (githubRequest ("/search/code?q=" ++ encodeURIComponent query ++ "&per_page=30")
        token "GET" none w)
  | "searchRepos" =>
    match readStringParamReq params "query" with
    | .error m => (.thrown m, w)
    | .ok query =>
      reqOut (githubRequest
        ("/search/repositories?q=" ++ encodeURIComponent query ++ "&per_page=30")
        token "GET" none w)
  | "getUser" =>
    match readStringParamOpt params "username" with
    | some username => reqOut (githubRequest ("/users/" ++ username) token "GET" none w)
    | none => reqOut (githubRequest "/user" token "GET" none w)
  | "listGists" =>
    match readStringParamOpt params "username" with
    | some username =>
      reqOut (githubRequest ("/users/" ++ username ++ "/gists?per_page=30") token "GET" none w)
    | none => reqOut (githubRequest "/gists?per_page=30" token "GET" none w)
  | _ =>
    (.ret ⟨[⟨"text", "Unknown action: " ++ action⟩], [("error", .str "unknown_action")]⟩, w)

/-- The GitHub tool's `execute` (the function stored in the tool object
returned by `createGitHubTool`). -/
def githubExecute (params : Params) (env : Env) (oracle : Nat → FetchResult) :
    Except String Envelope × Netw :=
  let w := Netw.init oracle
  match readStringParamReq params "action" with
  | .error m => (.error m, w)
  | .ok action =>
    match envCred env "GITHUB_TOKEN" with
    | none =>
      (.ok ⟨[⟨"text", "GitHub token not configured. Set GITHUB_TOKEN."⟩],
        [("error", .str "missing_token")]⟩, w)
    | some token =>
      match githubDispatch action params token w with
      | (out, w') => (.ok (finishExecute "GitHub" action out), w')

/-! ### Linear tool (`linear-tool.ts`) -/

/-- JavaScript property access that yields `undefined` for a missing
field (`result.data` when absent). -/
def jsonOrNull : Option Json → Json
  | some j => j
  | none => .null

/-- The interpolation `${result.errors[0].message}` for one element of a
GraphQL `errors` array. -/
def errMessage (e : Json) : String :=
  match e.lookup "message" with
  | some (.str m) => m
  | some v => Json.render v
  | none => "undefined"

/-- `linearGraphQL`: the Linear transport helper.  One POST to the fixed
GraphQL endpoint; non-ok status throws `Linear API error (...)`; an ok
status whose JSON body carries a non-empty `errors` array throws
`Linear GraphQL error: <first message>` and any `data` is discarded;
otherwise the body's `data` field is returned. -/
def linearGraphQL (query : String) (vars : List (String × Json)) (apiKey : String)
    (w : Netw) : Except String Json × Netw :=
  match fetchM ⟨"https://api.linear.app/graphql", "POST",
      [("Authorization", apiKey), ("Content-Type", "application/json")],
      some (.obj [("query", .str query), ("variables", .obj vars)])⟩ w with
  | (.error e, w') => (.error e, w')
  | (.ok r, w') =>
    if r.ok then
      match r.jsonBody with
      | none => (.error "Unexpected end of JSON input", w')
      | some j =>
        match j.lookup "errors" with
        | some (.arr (e :: _)) => (.error ("Linear GraphQL error: " ++ errMessage e), w')
        | _ => (.ok (jsonOrNull (j.lookup "data")), w')
    else (.error ("Linear API error (" ++ toString r.status ++ "): " ++ r.textBody), w')

/-- The `listIssues` filter fragment construction: `filter` starts empty,
a truthy `teamId` sets it to the team fragment, and a truthy `projectId`
then overwrites it with the project fragment. -/
def linearListIssuesFilter (teamId projectId : Option String) : String :=
  let filter0 := ""
  let filter1 :=
    match teamId with
    | some t => "team: \x7b id: \x7b eq: \x22" ++ t ++ "\x22 \x7d \x7d"
    | none => filter0
  match projectId with
  | some p => "project: \x7b id: \x7b eq: \x22" ++ p ++ "\x22 \x7d \x7d"
  | none => filter1

/-- The Linear GraphQL documents (whitespace condensed). -/
def linearListIssuesQuery : String :=
  "query($filter: IssueFilter) \x7b issues(filter: $filter, first: 50) \x7b nodes \x7b id title description state \x7b name \x7d priority assignee \x7b name \x7d createdAt updatedAt \x7d \x7d \x7d"

/-- GraphQL document for `getIssue`. -/
def linearGetIssueQuery : String :=
  "query($id: String!) \x7b issue(id: $id) \x7b id title description state \x7b name \x7d priority assignee \x7b name \x7d team \x7b name \x7d project \x7b name \x7d comments \x7b nodes \x7b body user \x7b name \x7d createdAt \x7d \x7d createdAt updatedAt \x7d \x7d"

/-- GraphQL document for `createIssue`. -/
def linearCreateIssueMutation : String :=
  "mutation($input: IssueCreateInput!) \x7b issueCreate(input: $input) \x7b success issue \x7b id title identifier url \x7d \x7d \x7d"

/-- GraphQL document for `updateIssue`. -/
def linearUpdateIssueMutation : String :=
  "mutation($id: String!, $input: IssueUpdateInput!) \x7b issueUpdate(id: $id, input: $input) \x7b success issue \x7b id title state \x7b name \x7d \x7d \x7d \x7d"

/-- GraphQL document for `listProjects`. -/
def linearListProjectsQuery : String :=
  "query \x7b projects(first: 50) \x7b nodes \x7b id name description state progress targetDate \x7d \x7d \x7d"

/-- GraphQL document for `listTeams`. -/
def linearListTeamsQuery : String :=
  "query \x7b teams \x7b nodes \x7b id name key description \x7d \x7d \x7d"

/-- GraphQL document for `searchIssues`. -/
def linearSearchIssuesQuery : String :=
  "query($query: String!) \x7b searchIssues(query: $query, first: 30) \x7b nodes \x7b id title identifier state \x7b name \x7d team \x7b name \x7d \x7d \x7d \x7d"

/-- The `switch (action)` inside the Linear tool's `execute`. -/
def linearDispatch (action : String) (params : Params) (apiKey : String) (w : Netw) :
    DispatchOut × Netw :=
  match action with
  | "listIssues" =>
    let teamId := readStringParamOpt params "teamId"
    let projectId := readStringParamOpt params "projectId"
    let filter := linearListIssuesFilter teamId projectId
    if filter = "" then
      reqOut (linearGraphQL linearListIssuesQuery [] apiKey w)
    else
      match jsonParse ("\x7b" ++ filter ++ "\x7d") with
      | .error m => (.thrown m, w)
      | .ok f => reqOut (linearGraphQL linearListIssuesQuery [("filter", f)] apiKey w)
  | "getIssue" =>
    match readStringParamReq params "issueId" with
    | .error m => (.thrown m, w)
    | .ok issueId =>
      reqOut (linearGraphQL linearGetIssueQuery [("id", .str issueId)] apiKey w)
  | "createIssue" =>
    match readStringParamReq params "teamId" with
    | .error m => (.thrown m, w)
    | .ok teamId =>
      match readStringParamReq params "title" with
      | .error m => (.thrown m, w)
      | .ok title =>
        let description := readStringParamOpt params "description"
        let priority := params "priority"
        let projectId := readStringParamOpt params "projectId"
        reqOut (linearGraphQL linearCreateIssueMutation
          [("input", .obj ([("teamId", .str teamId), ("title", .str title)]
            ++ (match description with | some d => [("description", .str d)] | none => [])
            ++ (match priority with | some v => [("priority", v.toJson)] | none => [])
            ++ (match projectId with | some p => [("projectId", .str p)] | none => [])))]
          apiKey w)
  | "updateIssue" =>
    match readStringParamReq params "issueId" with
    | .error m => (.thrown m, w)
    | .ok issueId =>
      let title := readStringParamOpt params "title"
      let description := readStringParamOpt params "description"
      let stateId := readStringParamOpt params "stateId"
      let priority := params "priority"
      let input : List (String × Json) :=
        (match title with | some t => [("title", .str t)] | none => [])
        ++ (match description with | some d => [("description", .str d)] | none => [])
        ++ (match stateId with | some s => [("stateId", .str s)] | none => [])
        ++ (match priority with | some v => [("priority", v.toJson)] | none => [])
      reqOut (linearGraphQL linearUpdateIssueMutation
        [("id", .str issueId), ("input", .obj input)] apiKey w)
  | "listProjects" => reqOut (linearGraphQL linearListProjectsQuery [] apiKey w)
  | "listTeams" => reqOut (linearGraphQL linearListTeamsQuery [] apiKey w)
  | "searchIssues" =>
    match readStringParamReq params "query" with
    | .error m => (.thrown m, w)
    | .ok query =>
      reqOut (linearGraphQL linearSearchIssuesQuery [("query", .str query)] apiKey w)
  | _ =>
    (.ret ⟨[⟨"text", "Unknown action: " ++ action⟩], [("error", .str "unknown_action")]⟩, w)

/-- The Linear tool's `execute`. -/
def linearExecute (params : Params) (env : Env) (oracle : Nat → FetchResult) :
    Except String Envelope × Netw :=
  let w := Netw.init oracle
  match readStringParamReq params "action" with
  | .error m => (.error m, w)
  | .ok action =>
    match envCred env "LINEAR_API_KEY" with
    | none =>
      (.ok ⟨[⟨"text", "Linear API key not configured. Set LINEAR_API_KEY."⟩],
        [("error", .str "missing_api_key")]⟩, w)
    | some apiKey =>
      match linearDispatch action params apiKey w with
      | (out, w') => (.ok (finishExecute "Linear" action out), w')

/-! ### ElevenLabs tool (`elevenlabs-tool.ts`) -/

/-- Default voice id (Rachel). -/
def DEFAULT_VOICE_ID : String := "21m00Tcm4TlvDq8ikWAM"
/-- Default model id. -/
def DEFAULT_MODEL_ID : String := "eleven_multilingual_v2"

/-- The interpolation `${audioResult.contentType}`. -/
def audioCT (j : Json) : String :=
  match j.lookup "contentType" with
  | some (.str c) => c
  | some v => Json.render v
  | none => "undefined"

/-- `elevenlabsRequest`: the ElevenLabs transport helper.  One fetch
against `https://api.elevenlabs.io/v1`; non-ok status throws; an ok
response whose content type mentions `audio` is read as binary and
returned as `{audio: <base64>, contentType}`; otherwise the JSON body. -/
def elevenlabsRequest (endpoint : String) (apiKey : String) (method : String)
    (body : Option Json) (isFormData : Bool) (w : Netw) : Except String Json × Netw :=
  let headers := [("xi-api-key", apiKey)]
    ++ (if !isFormData && body.isSome then [("Content-Type", "application/json")] else [])
  match fetchM ⟨"https://api.elevenlabs.io/v1" ++ endpoint, method, headers, body⟩ w with
  | (.error e, w') => (.error e, w')
  | (.ok r, w') =>
    if r.ok then
      match r.contentType with
      | some ct =>
        if containsSub ct "audio" then
          (.ok (.obj [("audio", .str r.bodyBase64), ("contentType", .str ct)]), w')
        else
          match r.jsonBody with
          | some j => (.ok j, w')
          | none => (.error "Unexpected end of JSON input", w')
      | none =>
        match r.jsonBody with
        | some j => (.ok j, w')
        | none => (.error "Unexpected end of JSON input", w')
    else (.error ("ElevenLabs API error (" ++ toString r.status ++ "): " ++ r.textBody), w')

/-- The `switch (action)` inside the ElevenLabs tool's `execute`. -/
def elevenlabsDispatch (action : String) (params : Params) (apiKey : String) (w : Netw) :
    DispatchOut × Netw :=
  match action with
  | "textToSpeech" =>
    match readStringParamReq params "text" with
    | .error m => (.thrown m, w)
    | .ok text =>
      let voiceId := (readStringParamOpt params "voiceId").getD DEFAULT_VOICE_ID
      let modelId := (readStringParamOpt params "modelId").getD DEFAULT_MODEL_ID
      let stability : Json :=
        match params "stability" with | some v => v.toJson | none => .num (0.5 : Rat)
      let similarityBoost : Json :=
        match params "similarityBoost" with | some v => v.toJson | none => .num (0.75 : Rat)
      let style : Json := match params "style" with | some v => v.toJson | none => .num 0
      let outputFormat := (readStringParamOpt params "outputFormat").getD "mp3_44100_128"
      match elevenlabsRequest ("/text-to-speech/" ++ voiceId ++ "?output_format=" ++ outputFormat)
          apiKey "POST"
          (some (.obj [("text", .str text), ("model_id", .str modelId),
            ("voice_settings", .obj [("stability", stability),
              ("similarity_boost", similarityBoost), ("style", style),
              ("use_speaker_boost", .bool true)])])) false w with
      | (.error m, w') => (.thrown m, w')
      | (.ok j, w') =>
        match j.lookup "audio" with
        | some (.str a) =>
          (.ret ⟨[⟨"text", "Audio generated successfully (" ++ audioCT j
            ++ "). Base64 audio data: " ++ a.take 100 ++ "... (truncated)"⟩],
            [("action", .str "textToSpeech"), ("success", .bool true),
              ("hasAudio", .bool true)]⟩, w')
        | some _ => (.thrown "audioResult.audio.substring is not a function", w')
        | none => (.res j, w')
  | "listVoices" => reqOut (elevenlabsRequest "/voices" apiKey "GET" none false w)
  | "getVoice" =>
    match readStringParamReq params "voiceId" with
    | .error m => (.thrown m, w)
    | .ok voiceId => reqOut (elevenlabsRequest ("/voices/" ++ voiceId) apiKey "GET" none false w)
  | "speechToSpeech" =>
    match readStringParamReq params "audioUrl" with
    | .error m => (.thrown m, w)
    | .ok audioUrl =>
      let voiceId := (readStringParamOpt params "voiceId").getD DEFAULT_VOICE_ID
      let modelId := (readStringParamOpt params "modelId").getD "eleven_english_sts_v2"
      let stability : Json :=
        match params "stability" with | some v => v.toJson | none => .num (0.5 : Rat)
      let similarityBoost : Json :=
        match params "similarityBoost" with | some v => v.toJson | none => .num (0.75 : Rat)
      match fetchM ⟨audioUrl, "GET", [], none⟩ w with
      | (.error m, w') => (.thrown m, w')
      | (.ok audioResponse, w') =>
        if !audioResponse.ok then
          (.thrown ("Failed to fetch audio: " ++ toString audioResponse.status), w')
        else
          let formData : Json := .obj [("audio", .str audioResponse.bodyBase64),
            ("model_id", .str modelId),
            ("voice_settings", .str (Json.render (.obj [("stability", stability),
              ("similarity_boost", similarityBoost)])))]
          match elevenlabsRequest ("/speech-to-speech/" ++ voiceId) apiKey "POST"
              (some formData) true w' with
          | (.error m, w'') => (.thrown m, w'')
          | (.ok j, w'') =>
            match j.lookup "audio" with
            | some (.str a) =>
              (.ret ⟨[⟨"text", "Speech-to-speech conversion successful. Base64 audio: "
                ++ a.take 100 ++ "... (truncated)"⟩],
                [("action", .str "speechToSpeech"), ("success", .bool true),
                  ("hasAudio", .bool true)]⟩, w'')
            | some _ => (.thrown "audioResult.audio.substring is not a function", w'')
            | none => (.res j, w'')
  | "getModels" => reqOut (elevenlabsRequest "/models" apiKey "GET" none false w)
  | "getHistory" => reqOut (elevenlabsRequest "/history" apiKey "GET" none false w)
  | _ =>
    (.ret ⟨[⟨"text", "Unknown action: " ++ action⟩], [("error", .str "unknown_action")]⟩, w)

/-- The ElevenLabs tool's `execute`. -/
def elevenlabsExecute (params : Params) (env : Env) (oracle : Nat → FetchResult) :
    Except String Envelope × Netw :=
  let w := Netw.init oracle
  match readStringParamReq params "action" with
  | .error m => (.error m, w)
  | .ok action =>
    match envCred env "ELEVENLABS_API_KEY" with
    | none =>
      (.ok ⟨[⟨"text", "ElevenLabs API key not configured. Set ELEVENLABS_API_KEY."⟩],
        [("error", .str "missing_api_key")]⟩, w)
    | some apiKey =>
      match elevenlabsDispatch action params apiKey w with
      | (out, w') => (.ok (finishExecute "ElevenLabs" action out), w')

/-! ### OpenAI tool (`openai-tool.ts`) -/

/-- `openaiRequest`: the OpenAI transport helper.  One POST against
`https://api.openai.com/v1`; non-ok status throws
`OpenAI API error (...)`; otherwise the JSON body. -/
def openaiRequest (endpoint : String) (apiKey : String) (body : Json) (w : Netw) :
    Except String Json × Netw :=
  match fetchM ⟨"https://api.openai.com/v1" ++ endpoint, "POST",
      [("Authorization", "Bearer " ++ apiKey), ("Content-Type", "application/json")],
      some body⟩ w with
  | (.error e, w') => (.error e, w')
  | (.ok r, w') =>
    if r.ok then
      match r.jsonBody with
      | some j => (.ok j, w')
      | none => (.error "Unexpected end of JSON input", w')
    else (.error ("OpenAI API error (" ++ toString r.status ++ "): " ++ r.textBody), w')

/-- The `switch (action)` inside the OpenAI tool's `execute`. -/
def openaiDispatch (action : String) (params : Params) (apiKey : String) (w : Netw) :
    DispatchOut × Netw :=
  match action with
  | "chat" =>
    match readStringParamReq params "prompt" with
    | .error m => (.thrown m, w)
    | .ok prompt =>
      let model := (readStringParamOpt params "model").getD "gpt-4o-mini"
      let systemPrompt := readStringParamOpt params "systemPrompt"
      let messages : List Json :=
        (match systemPrompt with
          | some sp => [.obj [("role", .str "system"), ("content", .str sp)]]
          | none => [])
        ++ [.obj [("role", .str "user"), ("content", .str prompt)]]
      reqOut (openaiRequest "/chat/completions" apiKey
        (.obj [("model", .str model), ("messages", .arr messages)]) w)
  | "embedding" =>
    match readStringParamReq params "text" with
    | .error m => (.thrown m, w)
    | .ok text =>
      let model := (readStringParamOpt params "model").getD "text-embedding-3-small"
      reqOut (openaiRequest "/embeddings" apiKey
        (.obj [("model", .str model), ("input", .str text)]) w)
  | "moderation" =>
    match readStringParamReq params "text" with
    | .error m => (.thrown m, w)
    | .ok text => reqOut (openaiRequest "/moderations" apiKey (.obj [("input", .str text)]) w)
  | "transcribe" =>
    match readStringParamReq params "audioUrl" with
    | .error m => (.thrown m, w)
    | .ok audioUrl =>
      match fetchM ⟨audioUrl, "GET", [], none⟩ w with
      | (.error m, w') => (.thrown m, w')
      | (.ok audioResponse, w') =>
        if !audioResponse.ok then
          (.thrown ("Failed to fetch audio: " ++ toString audioResponse.status), w')
        else
          let formData : Json := .obj [("file", .str audioResponse.bodyBase64),
            ("model", .str "whisper-1")]
          match fetchM ⟨"https://api.openai.com/v1/audio/transcriptions", "POST",
              [("Authorization", "Bearer " ++ apiKey)], some formData⟩ w' with
          | (.error m, w'') => (.thrown m, w'')
          | (.ok response, w'') =>
            if !response.ok then
              (.thrown ("Whisper API error (" ++ toString response.status ++ "): "
                ++ response.textBody), w'')
            else
              match response.jsonBody with
              | some j => (.res j, w'')
              | none => (.thrown "Unexpected end of JSON input", w'')
  | _ =>
    (.ret ⟨[⟨"text", "Unknown action: " ++ action⟩], [("error", .str "unknown_action")]⟩, w)

/-- The OpenAI tool's `execute`. -/
def openaiExecute (params : Params) (env : Env) (oracle : Nat → FetchResult) :
    Except String Envelope × Netw :=
  let w := Netw.init oracle
  match readStringParamReq params "action" with
  | .error m => (.error m, w)
  | .ok action =>
    match envCred env "OPENAI_API_KEY" with
    | none =>
      (.ok ⟨[⟨"text", "OpenAI API key not configured. Set OPENAI_API_KEY."⟩],
        [("error", .str "missing_api_key")]⟩, w)
    | some apiKey =>
      match openaiDispatch action params apiKey w with
      | (out, w') => (.ok (finishExecute "OpenAI" action out), w')

/-! ### Concrete fixtures and statement helpers -/

/-- Arguments given as an association list. -/
def mkParams (l : List (String × Value)) : Params :=
  fun k => (l.find? (fun p => p.1 = k)).map (fun p => p.2)

/-- The empty environment. -/
def envEmpty : Env := fun _ => none

/-- An environment holding exactly one variable. -/
def envWith (name value : String) : Env := fun n => if n = name then some value else none

/-- A network where every fetch rejects. -/
def oracleDown : Nat → FetchResult := fun _ => .thrown "network unavailable"

/-- A minimal successful JSON response. -/
def respOkEmpty : HTTPResponse := ⟨200, none, "", some (.obj []), ""⟩

/-- A network where every fetch succeeds with `respOkEmpty`. -/
def oracleOk : Nat → FetchResult := fun _ => .resp respOkEmpty

/-- Did `execute` return (rather than raise)? -/
def isOkE : Except String Envelope → Bool
  | .ok _ => true
  | .error _ => false

/-! ### Basic lemmas about the shared pieces -/

theorem data_append (s t : String) : (s ++ t).data = s.data ++ t.data := rfl

theorem readStringParamReq_of_opt (params : Params) (key s : String)
    (h : readStringParamOpt params key = some s) : readStringParamReq params key = .ok s := by
  unfold readStringParamReq
  rw [h]

theorem readStringParamReq_of_none (params : Params) (key : String)
    (h : readStringParamOpt params key = none) :
    readStringParamReq params key = .error (key ++ " parameter is required") := by
  unfold readStringParamReq
  rw [h]

theorem envCred_of_unset (env : Env) (name : String) (h : env name = none) :
    envCred env name = none := by
  unfold envCred
  rw [h]

@[simp] theorem reqOut_eq_ret_iff (x : Except String Json × Netw) (e : Envelope) (w : Netw) :
    (reqOut x = (.ret e, w)) ↔ False := by
  rcases x with ⟨r, wx⟩
  cases r <;> simp [reqOut]

theorem githubExecute_eq (params : Params) (env : Env) (oracle : Nat → FetchResult)
    (a token : String) (hA : readStringParamOpt params "action" = some a)
    (hK : envCred env "GITHUB_TOKEN" = some token) :
    githubExecute params env oracle
      = (.ok (finishExecute "GitHub" a (githubDispatch a params token (Netw.init oracle)).1),
          (githubDispatch a params token (Netw.init oracle)).2) := by
  unfold githubExecute
  rw [readStringParamReq_of_opt _ _ _ hA, hK]

theorem linearExecute_eq (params : Params) (env : Env) (oracle : Nat → FetchResult)
    (a apiKey : String) (hA : readStringParamOpt params "action" = some a)
    (hK : envCred env "LINEAR_API_KEY" = some apiKey) :
    linearExecute params env oracle
      = (.ok (finishExecute "Linear" a (linearDispatch a params apiKey (Netw.init oracle)).1),
          (linearDispatch a params apiKey (Netw.init oracle)).2) := by
  unfold linearExecute
  rw [readStringParamReq_of_opt _ _ _ hA, hK]

theorem elevenlabsExecute_eq (params : Params) (env : Env) (oracle : Nat → FetchResult)
    (a apiKey : String) (hA : readStringParamOpt params "action" = some a)
    (hK : envCred env "ELEVENLABS_API_KEY" = some apiKey) :
    elevenlabsExecute params env oracle
      = (.ok (finishExecute "ElevenLabs" a
            (elevenlabsDispatch a params apiKey (Netw.init oracle)).1),
          (elevenlabsDispatch a params apiKey (Netw.init oracle)).2) := by
  unfold elevenlabsExecute
  rw [readStringParamReq_of_opt _ _ _ hA, hK]

theorem openaiExecute_eq (params : Params) (env : Env) (oracle : Nat → FetchResult)
    (a apiKey : String) (hA : readStringParamOpt params "action" = some a)
    (hK : envCred env "OPENAI_API_KEY" = some apiKey) :
    openaiExecute params env oracle
      = (.ok (finishExecute "OpenAI" a (openaiDispatch a params apiKey (Netw.init oracle)).1),
          (openaiDispatch a params apiKey (Netw.init oracle)).2) := by
  unfold openaiExecute
  rw [readStringParamReq_of_opt _ _ _ hA, hK]

theorem githubDispatch_ret_shape (a : String) (params : Params) (token : String) (w : Netw)
    (e : Envelope) (w' : Netw) (h : githubDispatch a params token w = (.ret e, w')) :
    e.details = [("error", Json.str "unknown_action")] := by
  unfold githubDispatch at h
  dsimp only at h
  repeat' split at h
  all_goals first
    | (simp_all; done)
    | (injection h with h1 h2
       injection h1 with h3
       subst h3
       simp [lookupField])

theorem linearDispatch_ret_shape (a : String) (params : Params) (apiKey : String) (w : Netw)
    (e : Envelope) (w' : Netw) (h : linearDispatch a params apiKey w = (.ret e, w')) :
    e.details = [("error", Json.str "unknown_action")] := by
  unfold linearDispatch at h
  dsimp only at h
  repeat' split at h
  all_goals first
    | (simp_all; done)
    | (injection h with h1 h2
       injection h1 with h3
       subst h3
       simp [lookupField])

theorem openaiDispatch_ret_shape (a : String) (params : Params) (apiKey : String) (w : Netw)
    (e : Envelope) (w' : Netw) (h : openaiDispatch a params apiKey w = (.ret e, w')) :
    e.details = [("error", Json.str "unknown_action")] := by
  unfold openaiDispatch at h
  dsimp only at h
  repeat' split at h
  all_goals first
    | (simp_all; done)
    | (injection h with h1 h2
       injection h1 with h3
       subst h3
       simp [lookupField])

theorem elevenlabsDispatch_ret_shape (a : String) (params : Params) (apiKey : String) (w : Netw)
    (e : Envelope) (w' : Netw) (h : elevenlabsDispatch a params apiKey w = (.ret e, w')) :
    e.details = [("error", Json.str "unknown_action")]
      ∨ (lookupField e.details "action").isSome = true
        ∧ lookupField e.details "success" = some (.bool true) := by
  unfold elevenlabsDispatch at h
  dsimp only at h
  repeat' split at h
  all_goals first
    | (simp_all; done)
    | (injection h with h1 h2
       injection h1 with h3
       subst h3
       simp [lookupField])

/-! ### Claim C1 -/

/-- C1 counterexample: invoking the GitHub tool with no `action`
parameter at all makes `execute` raise the required-parameter validation
error past its own boundary (the `action` read happens before the
missing-credential check and before the `try` block), instead of
returning a Result Envelope.  This refutes the claim that every
invocation — including one with a missing `action` parameter — produces
exactly one envelope and never raises. -/
theorem c1_missing_action_raises :
    (githubExecute (mkParams []) envEmpty oracleDown).1
      = .error "action parameter is required" := rfl

/-- C1 (amended): for each of the four tools, whenever the `action`
parameter reads as a non-empty string, `execute` returns exactly one
Result Envelope (never raises) on every path — success, upstream API
error, transport failure, missing credential, unknown action, and
missing or invalid parameters other than `action`.  (When `action`
itself is missing or empty the validation error escapes, as shown by the
counterexample.) -/
theorem c1_execute_returns_envelope :
    (∀ (params : Params) (env : Env) (oracle : Nat → FetchResult) (a : String),
      readStringParamOpt params "action" = some a →
      isOkE (githubExecute params env oracle).1 = true)
    ∧ (∀ (params : Params) (env : Env) (oracle : Nat → FetchResult) (a : String),
      readStringParamOpt params "action" = some a →
      isOkE (linearExecute params env oracle).1 = true)
    ∧ (∀ (params : Params) (env : Env) (oracle : Nat → FetchResult) (a : String),
      readStringParamOpt params "action" = some a →
      isOkE (elevenlabsExecute params env oracle).1 = true)
    ∧ (∀ (params : Params) (env : Env) (oracle : Nat → FetchResult) (a : String),
      readStringParamOpt params "action" = some a →
      isOkE (openaiExecute params env oracle).1 = true) := by
  refine ⟨?_, ?_, ?_, ?_⟩ <;> intro params env oracle a hA
  · unfold githubExecute
    rw [readStringParamReq_of_opt _ _ _ hA]
    cases envCred env "GITHUB_TOKEN" with
    | none => rfl
    | some token => rfl
  · unfold linearExecute
    rw [readStringParamReq_of_opt _ _ _ hA]
    cases envCred env "LINEAR_API_KEY" with
    | none => rfl
    | some apiKey => rfl
  · unfold elevenlabsExecute
    rw [readStringParamReq_of_opt _ _ _ hA]
    cases envCred env "ELEVENLABS_API_KEY" with
    | none => rfl
    | some apiKey => rfl
  · unfold openaiExecute
    rw [readStringParamReq_of_opt _ _ _ hA]
    cases envCred env "OPENAI_API_KEY" with
    | none => rfl
    | some apiKey => rfl

/-- Witness for C1's amended theorem at a concrete input: the GitHub
tool with `action = "getRepo"`, no token and a failing network still
returns an envelope. -/
theorem c1_execute_returns_envelope_witness :
    isOkE (githubExecute (mkParams [("action", .str "getRepo")]) envEmpty oracleDown).1
      = true :=
  c1_execute_returns_envelope.1 (mkParams [("action", .str "getRepo")]) envEmpty oracleDown
    "getRepo" rfl

/-! ### Claim C2 -/

theorem githubEnvelope_keys (params : Params) (env : Env) (oracle : Nat → FetchResult)
    (e : Envelope) (h : (githubExecute params env oracle).1 = .ok e) :
    ((lookupField e.details "success").isSome = true
        ∨ (lookupField e.details "error").isSome = true)
    ∧ ((lookupField e.details "action").isSome = true
        ∨ e.details = [("error", Json.str "missing_token")]
        ∨ e.details = [("error", Json.str "unknown_action")]) := by
  unfold githubExecute at h
  cases hA : readStringParamReq params "action" with
  | error m =>
    rw [hA] at h
    simp at h
  | ok action =>
    rw [hA] at h
    dsimp only at h
    cases hK : envCred env "GITHUB_TOKEN" with
    | none =>
      rw [hK] at h
      dsimp only at h
      injection h with h1
      subst h1
      simp [lookupField]
    | some token =>
      rw [hK] at h
      dsimp only at h
      rcases hd : githubDispatch action params token (Netw.init oracle) with ⟨out, w'⟩
      rw [hd] at h
      dsimp only at h
      injection h with h1
      cases out with
      | ret e' =>
        have hds := githubDispatch_ret_shape _ _ _ _ _ _ hd
        simp only [finishExecute] at h1
        subst h1
        simp [hds, lookupField]
      | res j =>
        simp only [finishExecute] at h1
        subst h1
        simp [lookupField]
      | thrown m =>
        simp only [finishExecute] at h1
        subst h1
        simp [lookupField]

theorem linearEnvelope_keys (params : Params) (env : Env) (oracle : Nat → FetchResult)
    (e : Envelope) (h : (linearExecute params env oracle).1 = .ok e) :
    ((lookupField e.details "success").isSome = true
        ∨ (lookupField e.details "error").isSome = true)
    ∧ ((lookupField e.details "action").isSome = true
        ∨ e.details = [("error", Json.str "missing_api_key")]
        ∨ e.details = [("error", Json.str "unknown_action")]) := by
  unfold linearExecute at h
  cases hA : readStringParamReq params "action" with
  | error m =>
    rw [hA] at h
    simp at h
  | ok action =>
    rw [hA] at h
    dsimp only at h
    cases hK : envCred env "LINEAR_API_KEY" with
    | none =>
      rw [hK] at h
      dsimp only at h
      injection h with h1
      subst h1
      simp [lookupField]
    | some apiKey =>
      rw [hK] at h
      dsimp only at h
      rcases hd : linearDispatch action params apiKey (Netw.init oracle) with ⟨out, w'⟩
      rw [hd] at h
      dsimp only at h
      injection h with h1
      cases out with
      | ret e' =>
        have hds := linearDispatch_ret_shape _ _ _ _ _ _ hd
        simp only [finishExecute] at h1
        subst h1
        simp [hds, lookupField]
      | res j =>
        simp only [finishExecute] at h1
        subst h1
        simp [lookupField]
      | thrown m =>
        simp only [finishExecute] at h1
        subst h1
        simp [lookupField]

theorem elevenlabsEnvelope_keys (params : Params) (env : Env) (oracle : Nat → FetchResult)
    (e : Envelope) (h : (elevenlabsExecute params env oracle).1 = .ok e) :
    ((lookupField e.details "success").isSome = true
        ∨ (lookupField e.details "error").isSome = true)
    ∧ ((lookupField e.details "action").isSome = true
        ∨ e.details = [("error", Json.str "missing_api_key")]
        ∨ e.details = [("error", Json.str "unknown_action")]) := by
  unfold elevenlabsExecute at h
  cases hA : readStringParamReq params "action" with
  | error m =>
    rw [hA] at h
    simp at h
  | ok action =>
    rw [hA] at h
    dsimp only at h
    cases hK : envCred env "ELEVENLABS_API_KEY" with
    | none =>
      rw [hK] at h
      dsimp only at h
      injection h with h1
      subst h1
      simp [lookupField]
    | some apiKey =>
      rw [hK] at h
      dsimp only at h
      rcases hd : elevenlabsDispatch action params apiKey (Netw.init oracle) with ⟨out, w'⟩
      rw [hd] at h
      dsimp only at h
      injection h with h1
      cases out with
      | ret e' =>
        have hds := elevenlabsDispatch_ret_shape _ _ _ _ _ _ hd
        simp only [finishExecute] at h1
        subst h1
        rcases hds with hds | ⟨hact, hsucc⟩
        · simp [hds, lookupField]
        · exact ⟨Or.inl (by rw [hsucc]; rfl), Or.inl hact⟩
      | res j =>
        simp only [finishExecute] at h1
        subst h1
        simp [lookupField]
      | thrown m =>
        simp only [finishExecute] at h1
        subst h1
        simp [lookupField]

theorem openaiEnvelope_keys (params : Params) (env : Env) (oracle : Nat → FetchResult)
    (e : Envelope) (h : (openaiExecute params env oracle).1 = .ok e) :
    ((lookupField e.details "success").isSome = true
        ∨ (lookupField e.details "error").isSome = true)
    ∧ ((lookupField e.details "action").isSome = true
        ∨ e.details = [("error", Json.str "missing_api_key")]
        ∨ e.details = [("error", Json.str "unknown_action")]) := by
  unfold openaiExecute at h
  cases hA : readStringParamReq params "action" with
  | error m =>
    rw [hA] at h
    simp at h
  | ok action =>
    rw [hA] at h
    dsimp only at h
    cases hK : envCred env "OPENAI_API_KEY" with
    | none =>
      rw [hK] at h
      dsimp only at h
      injection h with h1
      subst h1
      simp [lookupField]
    | some apiKey =>
      rw [hK] at h
      dsimp only at h
      rcases hd : openaiDispatch action params apiKey (Netw.init oracle) with ⟨out, w'⟩
      rw [hd] at h
      dsimp only at h
      injection h with h1
      cases out with
      | ret e' =>
        have hds := openaiDispatch_ret_shape _ _ _ _ _ _ hd
        simp only [finishExecute] at h1
        subst h1
        simp [hds, lookupField]
      | res j =>
        simp only [finishExecute] at h1
        subst h1
        simp [lookupField]
      | thrown m =>
        simp only [finishExecute] at h1
        subst h1
        simp [lookupField]

/-- C2 counterexample: the GitHub tool invoked with a valid action but
no token returns the missing-credential envelope, whose `details` holds
only the `error` key — the claimed `action` key is absent.  (The
unknown-action envelope `details = [(error, unknown_action)]` likewise
lacks it.)  This refutes the claim that every outcome's details contain
at least `action`. -/
theorem c2_missing_credential_details_lack_action :
    (githubExecute (mkParams [("action", .str "getRepo")]) envEmpty oracleDown).1
      = .ok ⟨[⟨"text", "GitHub token not configured. Set GITHUB_TOKEN."⟩],
          [("error", .str "missing_token")]⟩
    ∧ lookupField [("error", Json.str "missing_token")] "action" = none :=
  ⟨rfl, rfl⟩

/-- C2 (amended): for every tool and every invocation that returns an
envelope, the envelope's `details` contains at least one of the keys
`success` or `error`; it also contains the key `action`, except for the
missing-credential envelope (`details = [(error, missing_token)]` resp.
`[(error, missing_api_key)]`) and the unknown-action envelope
(`details = [(error, unknown_action)]`), which hold only `error`. -/
theorem c2_details_keys :
    (∀ (params : Params) (env : Env) (oracle : Nat → FetchResult) (e : Envelope),
      (githubExecute params env oracle).1 = .ok e →
      ((lookupField e.details "success").isSome = true
          ∨ (lookupField e.details "error").isSome = true)
      ∧ ((lookupField e.details "action").isSome = true
          ∨ e.details = [("error", Json.str "missing_token")]
          ∨ e.details = [("error", Json.str "unknown_action")]))
    ∧ (∀ (params : Params) (env : Env) (oracle : Nat → FetchResult) (e : Envelope),
      (linearExecute params env oracle).1 = .ok e →
      ((lookupField e.details "success").isSome = true
          ∨ (lookupField e.details "error").isSome = true)
      ∧ ((lookupField e.details "action").isSome = true
          ∨ e.details = [("error", Json.str "missing_api_key")]
          ∨ e.details = [("error", Json.str "unknown_action")]))
    ∧ (∀ (params : Params) (env : Env) (oracle : Nat → FetchResult) (e : Envelope),
      (elevenlabsExecute params env oracle).1 = .ok e →
      ((lookupField e.details "success").isSome = true
          ∨ (lookupField e.details "error").isSome = true)
      ∧ ((lookupField e.details "action").isSome = true
          ∨ e.details = [("error", Json.str "missing_api_key")]
          ∨ e.details = [("error", Json.str "unknown_action")]))
    ∧ (∀ (params : Params) (env : Env) (oracle : Nat → FetchResult) (e : Envelope),
      (openaiExecute params env oracle).1 = .ok e →
      ((lookupField e.details "success").isSome = true
          ∨ (lookupField e.details "error").isSome = true)
      ∧ ((lookupField e.details "action").isSome = true
          ∨ e.details = [("error", Json.str "missing_api_key")]
          ∨ e.details = [("error", Json.str "unknown_action")])) :=
  ⟨githubEnvelope_keys, linearEnvelope_keys, elevenlabsEnvelope_keys, openaiEnvelope_keys⟩

/-- Witness for C2's amended theorem: the concrete missing-token
envelope of the GitHub tool carries an `error` key. -/
theorem c2_details_keys_witness :
    ((lookupField ([("error", Json.str "missing_token")] : List (String × Json)) "success").isSome
          = true
        ∨ (lookupField ([("error", Json.str "missing_token")] : List (String × Json))
            "error").isSome = true)
    ∧ ((lookupField ([("error", Json.str "missing_token")] : List (String × Json))
          "action").isSome = true
        ∨ ([("error", Json.str "missing_token")] : List (String × Json))
            = [("error", Json.str "missing_token")]
        ∨ ([("error", Json.str "missing_token")] : List (String × Json))
            = [("error", Json.str "unknown_action")]) :=
  c2_details_keys.1 (mkParams [("action", .str "getRepo")]) envEmpty oracleDown
    ⟨[⟨"text", "GitHub token not configured. Set GITHUB_TOKEN."⟩],
      [("error", .str "missing_token")]⟩ rfl

/-! ### Claim C3 -/

/-- C3: whenever the HTTP response to `linearGraphQL` has a success
status but its JSON body carries a non-empty `errors` array, the call
fails with `Linear GraphQL error: <first error's message>` — an error
message that contains the first error's message — and any `data` field
in the body is discarded (the call returns the error, not the data). -/
theorem c3_linearGraphQL_errors_array (q : String) (vars : List (String × Json))
    (apiKey : String) (oracle : Nat → FetchResult) (r : HTTPResponse) (j e : Json)
    (es : List Json) (m : String)
    (h0 : oracle 0 = .resp r) (hok : r.ok = true) (hj : r.jsonBody = some j)
    (herr : j.lookup "errors" = some (.arr (e :: es)))
    (hm : e.lookup "message" = some (.str m)) :
    (linearGraphQL q vars apiKey (Netw.init oracle)).1
      = .error ("Linear GraphQL error: " ++ m) := by
  unfold linearGraphQL fetchM Netw.init
  dsimp only
  rw [h0]
  dsimp only
  simp [hok, hj, herr]
  unfold errMessage
  rw [hm]

/-- Witness for C3 at the claim's concrete instance: HTTP 200 with body
`{"data": ..., "errors": [{"message": "Entity not found"}]}` fails with
a message containing `Entity not found`, the `data` field notwithstanding. -/
theorem c3_linearGraphQL_errors_array_witness :
    (linearGraphQL "query" [] "key" (Netw.init (fun _ =>
        .resp ⟨200, none, "",
          some (.obj [("data", .obj [("issue", .null)]),
            ("errors", .arr [.obj [("message", .str "Entity not found")]])]), ""⟩))).1
      = .error ("Linear GraphQL error: " ++ "Entity not found") :=
  c3_linearGraphQL_errors_array "query" [] "key" _ _ _ _ _ _ rfl rfl rfl rfl rfl

/-! ### Claim C4 -/

/-- C4: for every tool, if the provider's credential environment
variable is unset then, for every action (supplied as a non-empty
string) and every argument set, `execute` returns the
missing-credential envelope — `details.error` is `missing_token` resp.
`missing_api_key`, the content text names the environment variable to
set — and zero HTTP requests are made. -/
theorem c4_missing_credential_short_circuits :
    (∀ (params : Params) (env : Env) (oracle : Nat → FetchResult) (a : String),
      readStringParamOpt params "action" = some a → env "GITHUB_TOKEN" = none →
      (githubExecute params env oracle).1
        = .ok ⟨[⟨"text", "GitHub token not configured. Set GITHUB_TOKEN."⟩],
            [("error", .str "missing_token")]⟩
      ∧ (githubExecute params env oracle).2.count = 0
      ∧ containsSub "GitHub token not configured. Set GITHUB_TOKEN." "GITHUB_TOKEN" = true)
    ∧ (∀ (params : Params) (env : Env) (oracle : Nat → FetchResult) (a : String),
      readStringParamOpt params "action" = some a → env "LINEAR_API_KEY" = none →
      (linearExecute params env oracle).1
        = .ok ⟨[⟨"text", "Linear API key not configured. Set LINEAR_API_KEY."⟩],
            [("error", .str "missing_api_key")]⟩
      ∧ (linearExecute params env oracle).2.count = 0
      ∧ containsSub "Linear API key not configured. Set LINEAR_API_KEY." "LINEAR_API_KEY" = true)
    ∧ (∀ (params : Params) (env : Env) (oracle : Nat → FetchResult) (a : String),
      readStringParamOpt params "action" = some a → env "ELEVENLABS_API_KEY" = none →
      (elevenlabsExecute params env oracle).1
        = .ok ⟨[⟨"text", "ElevenLabs API key not configured. Set ELEVENLABS_API_KEY."⟩],
            [("error", .str "missing_api_key")]⟩
      ∧ (elevenlabsExecute params env oracle).2.count = 0
      ∧ containsSub "ElevenLabs API key not configured. Set ELEVENLABS_API_KEY."
          "ELEVENLABS_API_KEY" = true)
    ∧ (∀ (params : Params) (env : Env) (oracle : Nat → FetchResult) (a : String),
      readStringParamOpt params "action" = some a → env "OPENAI_API_KEY" = none →
      (openaiExecute params env oracle).1
        = .ok ⟨[⟨"text", "OpenAI API key not configured. Set OPENAI_API_KEY."⟩],
            [("error", .str "missing_api_key")]⟩
      ∧ (openaiExecute params env oracle).2.count = 0
      ∧ containsSub "OpenAI API key not configured. Set OPENAI_API_KEY." "OPENAI_API_KEY"
          = true) := by
  refine ⟨?_, ?_, ?_, ?_⟩ <;> intro params env oracle a hA hU
  · unfold githubExecute
    rw [readStringParamReq_of_opt _ _ _ hA, envCred_of_unset _ _ hU]
    exact ⟨rfl, rfl, by decide⟩
  · unfold linearExecute
    rw [readStringParamReq_of_opt _ _ _ hA, envCred_of_unset _ _ hU]
    exact ⟨rfl, rfl, by decide⟩
  · unfold elevenlabsExecute
    rw [readStringParamReq_of_opt _ _ _ hA, envCred_of_unset _ _ hU]
    exact ⟨rfl, rfl, by decide⟩
  · unfold openaiExecute
    rw [readStringParamReq_of_opt _ _ _ hA, envCred_of_unset _ _ hU]
    exact ⟨rfl, rfl, by decide⟩

/-- Witness for C4: the Linear tool with an empty environment. -/
theorem c4_missing_credential_short_circuits_witness :
    (linearExecute (mkParams [("action", .str "listTeams")]) envEmpty oracleDown).1
      = .ok ⟨[⟨"text", "Linear API key not configured. Set LINEAR_API_KEY."⟩],
          [("error", .str "missing_api_key")]⟩
    ∧ (linearExecute (mkParams [("action", .str "listTeams")]) envEmpty oracleDown).2.count = 0
    ∧ containsSub "Linear API key not configured. Set LINEAR_API_KEY." "LINEAR_API_KEY"
        = true :=
  c4_missing_credential_short_circuits.2.1 (mkParams [("action", .str "listTeams")]) envEmpty
    oracleDown "listTeams" rfl rfl

/-! ### Claim C6 -/

/-- C6 (code bug evaluated at the failing input): a fully valid Linear
`listIssues` invocation — recognized action, credential present, the
optional `teamId` supplied as the benign string `T1`, and a network that
would answer every request successfully — still produces an error
envelope and performs zero requests, because the filter fragment
`team: \x7b id: \x7b eq: "T1" \x7d \x7d` uses unquoted keys and
`JSON.parse` rejects it.  The claim's promised
`details.success === true` envelope is unreachable whenever a filter is
supplied. -/
theorem c6_listIssues_filter_construction_fails :
    (linearExecute (mkParams [("action", .str "listIssues"), ("teamId", .str "T1")])
        (envWith "LINEAR_API_KEY" "k") oracleOk).1
      = .ok ⟨[⟨"text", "Linear error: Expected property name or end of object in JSON"⟩],
          [("action", .str "listIssues"),
            ("error", .str "Expected property name or end of object in JSON")]⟩
    ∧ (linearExecute (mkParams [("action", .str "listIssues"), ("teamId", .str "T1")])
        (envWith "LINEAR_API_KEY" "k") oracleOk).2.count = 0 :=
  ⟨rfl, rfl⟩

/-! ### Claim C7 -/

theorem elevenlabsRequest_netw (endpoint apiKey method : String) (body : Option Json)
    (isFormData : Bool) (w : Netw) :
    (elevenlabsRequest endpoint apiKey method body isFormData w).2
      = ⟨w.oracle, w.count + 1, w.log ++ [⟨"https://api.elevenlabs.io/v1" ++ endpoint, method,
          [("xi-api-key", apiKey)]
            ++ (if !isFormData && body.isSome then [("Content-Type", "application/json")]
              else []), body⟩]⟩ := by
  unfold elevenlabsRequest fetchM
  dsimp only
  cases w.oracle w.count
  all_goals dsimp only
  all_goals repeat' split
  all_goals rfl

/-- C7: an ElevenLabs `textToSpeech` invocation with every optional
parameter omitted issues exactly one request in which each default has
been filled in: the voice id is the fixed preset
`21m00Tcm4TlvDq8ikWAM` (Rachel) in the URL path, the output format is
`mp3_44100_128` in the URL query, and the body carries
`model_id = eleven_multilingual_v2`, `stability = 0.5`,
`similarity_boost = 0.75` and `style = 0`. -/
theorem c7_textToSpeech_defaults (params : Params) (env : Env) (oracle : Nat → FetchResult)
    (text k : String)
    (hA : readStringParamOpt params "action" = some "textToSpeech")
    (hT : readStringParamOpt params "text" = some text)
    (hV : readStringParamOpt params "voiceId" = none)
    (hM : readStringParamOpt params "modelId" = none)
    (hS : params "stability" = none)
    (hB : params "similarityBoost" = none)
    (hY : params "style" = none)
    (hO : readStringParamOpt params "outputFormat" = none)
    (hK : envCred env "ELEVENLABS_API_KEY" = some k) :
    (elevenlabsExecute params env oracle).2.log
      = [⟨"https://api.elevenlabs.io/v1" ++ ("/text-to-speech/" ++ DEFAULT_VOICE_ID
            ++ "?output_format=" ++ "mp3_44100_128"), "POST",
          [("xi-api-key", k), ("Content-Type", "application/json")],
          some (.obj [("text", .str text), ("model_id", .str DEFAULT_MODEL_ID),
            ("voice_settings", .obj [("stability", .num (0.5 : Rat)),
              ("similarity_boost", .num (0.75 : Rat)), ("style", .num 0),
              ("use_speaker_boost", .bool true)])])⟩] := by
  rw [elevenlabsExecute_eq params env oracle "textToSpeech" k hA hK]
  unfold elevenlabsDispatch
  rw [readStringParamReq_of_opt _ _ _ hT]
  dsimp only
  rw [hV, hM, hS, hB, hY, hO]
  simp only [Option.getD_none]
  split
  next m w' heq =>
    have h2 := congrArg Prod.snd heq
    rw [elevenlabsRequest_netw] at h2
    dsimp only at h2 ⊢
    rw [← h2]
    simp [Netw.init]
  next j w' heq =>
    have h2 := congrArg Prod.snd heq
    rw [elevenlabsRequest_netw] at h2
    dsimp only at h2
    repeat' split
    all_goals (dsimp only; rw [← h2]; simp [Netw.init])

/-- Witness for C7 at a concrete invocation. -/
theorem c7_textToSpeech_defaults_witness :
    (elevenlabsExecute (mkParams [("action", .str "textToSpeech"), ("text", .str "Hello")])
        (envWith "ELEVENLABS_API_KEY" "k") oracleDown).2.log
      = [⟨"https://api.elevenlabs.io/v1" ++ ("/text-to-speech/" ++ DEFAULT_VOICE_ID
            ++ "?output_format=" ++ "mp3_44100_128"), "POST",
          [("xi-api-key", "k"), ("Content-Type", "application/json")],
          some (.obj [("text", .str "Hello"), ("model_id", .str DEFAULT_MODEL_ID),
            ("voice_settings", .obj [("stability", .num (0.5 : Rat)),
              ("similarity_boost", .num (0.75 : Rat)), ("style", .num 0),
              ("use_speaker_boost", .bool true)])])⟩] :=
  c7_textToSpeech_defaults
    (mkParams [("action", .str "textToSpeech"), ("text", .str "Hello")])
    (envWith "ELEVENLABS_API_KEY" "k") oracleDown "Hello" "k"
    rfl rfl rfl rfl rfl rfl rfl rfl rfl

/-! ### Claim C8 -/

/-- C8: in the two two-step actions — ElevenLabs `speechToSpeech` and
OpenAI `transcribe` — when the intermediate fetch of the remote audio
resource resolves with a non-ok status, the call short-circuits with an
error envelope whose message is `Failed to fetch audio: <status>`, and
exactly one request (the audio fetch) was issued: the multipart upload
to the target API is never attempted. -/
theorem c8_fetch_failure_short_circuits :
    (∀ (params : Params) (env : Env) (oracle : Nat → FetchResult) (u k : String)
      (r : HTTPResponse),
      readStringParamOpt params "action" = some "speechToSpeech" →
      readStringParamOpt params "audioUrl" = some u →
      envCred env "ELEVENLABS_API_KEY" = some k →
      oracle 0 = .resp r → r.ok = false →
      (elevenlabsExecute params env oracle).1
        = .ok ⟨[⟨"text", "ElevenLabs" ++ " error: "
              ++ ("Failed to fetch audio: " ++ toString r.status)⟩],
            [("action", .str "speechToSpeech"),
              ("error", .str ("Failed to fetch audio: " ++ toString r.status))]⟩
      ∧ (elevenlabsExecute params env oracle).2.count = 1
      ∧ (elevenlabsExecute params env oracle).2.log = [⟨u, "GET", [], none⟩])
    ∧ (∀ (params : Params) (env : Env) (oracle : Nat → FetchResult) (u k : String)
      (r : HTTPResponse),
      readStringParamOpt params "action" = some "transcribe" →
      readStringParamOpt params "audioUrl" = some u →
      envCred env "OPENAI_API_KEY" = some k →
      oracle 0 = .resp r → r.ok = false →
      (openaiExecute params env oracle).1
        = .ok ⟨[⟨"text", "OpenAI" ++ " error: "
              ++ ("Failed to fetch audio: " ++ toString r.status)⟩],
            [("action", .str "transcribe"),
              ("error", .str ("Failed to fetch audio: " ++ toString r.status))]⟩
      ∧ (openaiExecute params env oracle).2.count = 1
      ∧ (openaiExecute params env oracle).2.log = [⟨u, "GET", [], none⟩]) := by
  constructor
  · intro params env oracle u k r hA hU hK h0 hok
    rw [elevenlabsExecute_eq params env oracle "speechToSpeech" k hA hK]
    unfold elevenlabsDispatch
    rw [readStringParamReq_of_opt _ _ _ hU]
    dsimp only
    unfold fetchM Netw.init
    dsimp only
    rw [h0]
    dsimp only
    rw [hok]
    exact ⟨rfl, rfl, rfl⟩
  · intro params env oracle u k r hA hU hK h0 hok
    rw [openaiExecute_eq params env oracle "transcribe" k hA hK]
    unfold openaiDispatch
    rw [readStringParamReq_of_opt _ _ _ hU]
    dsimp only
    unfold fetchM Netw.init
    dsimp only
    rw [h0]
    dsimp only
    rw [hok]
    exact ⟨rfl, rfl, rfl⟩

/-- Witness for C8: OpenAI `transcribe` whose audio fetch answers 404. -/
theorem c8_fetch_failure_short_circuits_witness :
    (openaiExecute (mkParams [("action", .str "transcribe"), ("audioUrl", .str "https://x/a.mp3")])
        (envWith "OPENAI_API_KEY" "k")
        (fun _ => .resp ⟨404, none, "Not Found", none, ""⟩)).1
      = .ok ⟨[⟨"text", "OpenAI" ++ " error: " ++ ("Failed to fetch audio: "
            ++ toString (HTTPResponse.status ⟨404, none, "Not Found", none, ""⟩))⟩],
          [("action", .str "transcribe"),
            ("error", .str ("Failed to fetch audio: "
              ++ toString (HTTPResponse.status ⟨404, none, "Not Found", none, ""⟩)))]⟩
    ∧ (openaiExecute (mkParams [("action", .str "transcribe"),
          ("audioUrl", .str "https://x/a.mp3")])
        (envWith "OPENAI_API_KEY" "k")
        (fun _ => .resp ⟨404, none, "Not Found", none, ""⟩)).2.count = 1
    ∧ (openaiExecute (mkParams [("action", .str "transcribe"),
          ("audioUrl", .str "https://x/a.mp3")])
        (envWith "OPENAI_API_KEY" "k")
        (fun _ => .resp ⟨404, none, "Not Found", none, ""⟩)).2.log
      = [⟨"https://x/a.mp3", "GET", [], none⟩] :=
  c8_fetch_failure_short_circuits.2
    (mkParams [("action", .str "transcribe"), ("audioUrl", .str "https://x/a.mp3")])
    (envWith "OPENAI_API_KEY" "k") (fun _ => .resp ⟨404, none, "Not Found", none, ""⟩)
    "https://x/a.mp3" "k" ⟨404, none, "Not Found", none, ""⟩ rfl rfl rfl rfl rfl

/-! ### Claim C5 -/

/-- The error envelope produced by the outer `catch` for a thrown
validation message (abbreviation for statements; definitionally
`finishExecute label action (.thrown msg)`). -/
def errorEnvelope (label action msg : String) : Envelope :=
  ⟨[⟨"text", label ++ " error: " ++ msg⟩], [("action", .str action), ("error", .str msg)]⟩

/-- C5: for every action that requires a specific parameter, invoking
with that parameter missing or empty (and the action's other required
parameters present, and the credential present) yields an error
envelope whose `details.error` text includes the offending parameter's
name, with zero network requests made.  One conjunct per
(action, missing parameter) pair across all four tools; for the GitHub
owner/repo pairs there is one conjunct with `owner` missing and one
with `owner` present but `repo` missing, and the single message
`owner and repo are required for <action>` names both parameters. -/
theorem c5_missing_required_param :
    (∀ (params : Params) (env : Env) (oracle : Nat → FetchResult) (k : String),
      readStringParamOpt params "action" = some "getRepo" →
      readStringParamOpt params "owner" = none →
      envCred env "GITHUB_TOKEN" = some k →
      (githubExecute params env oracle).1
        = .ok (errorEnvelope "GitHub" "getRepo" "owner and repo are required for getRepo")
      ∧ (githubExecute params env oracle).2.count = 0
      ∧ containsSub "owner and repo are required for getRepo" "owner" = true
      ∧ containsSub "owner and repo are required for getRepo" "repo" = true)
    ∧ (∀ (params : Params) (env : Env) (oracle : Nat → FetchResult) (k o : String),
      readStringParamOpt params "action" = some "getRepo" →
      readStringParamOpt params "owner" = some o →
      readStringParamOpt params "repo" = none →
      envCred env "GITHUB_TOKEN" = some k →
      (githubExecute params env oracle).1
        = .ok (errorEnvelope "GitHub" "getRepo" "owner and repo are required for getRepo")
      ∧ (githubExecute params env oracle).2.count = 0
      ∧ containsSub "owner and repo are required for getRepo" "owner" = true
      ∧ containsSub "owner and repo are required for getRepo" "repo" = true)
    ∧ (∀ (params : Params) (env : Env) (oracle : Nat → FetchResult) (k : String),
      readStringParamOpt params "action" = some "listIssues" →
      readStringParamOpt params "owner" = none →
      envCred env "GITHUB_TOKEN" = some k →
      (githubExecute params env oracle).1
        = .ok (errorEnvelope "GitHub" "listIssues" "owner and repo are required for listIssues")
      ∧ (githubExecute params env oracle).2.count = 0
      ∧ containsSub "owner and repo are required for listIssues" "owner" = true
      ∧ containsSub "owner and repo are required for listIssues" "repo" = true)
    ∧ (∀ (params : Params) (env : Env) (oracle : Nat → FetchResult) (k o : String),
      readStringParamOpt params "action" = some "listIssues" →
      readStringParamOpt params "owner" = some o →
      readStringParamOpt params "repo" = none →
      envCred env "GITHUB_TOKEN" = some k →
      (githubExecute params env oracle).1
        = .ok (errorEnvelope "GitHub" "listIssues" "owner and repo are required for listIssues")
      ∧ (githubExecute params env oracle).2.count = 0
      ∧ containsSub "owner and repo are required for listIssues" "owner" = true
      ∧ containsSub "owner and repo are required for listIssues" "repo" = true)
    ∧ (∀ (params : Params) (env : Env) (oracle : Nat → FetchResult) (k : String),
      readStringParamOpt params "action" = some "getIssue" →
      readStringParamOpt params "owner" = none →
      envCred env "GITHUB_TOKEN" = some k →
      (githubExecute params env oracle).1
        = .ok (errorEnvelope "GitHub" "getIssue" "owner and repo are required for getIssue")
      ∧ (githubExecute params env oracle).2.count = 0
      ∧ containsSub "owner and repo are required for getIssue" "owner" = true
      ∧ containsSub "owner and repo are required for getIssue" "repo" = true)
    ∧ (∀ (params : Params) (env : Env) (oracle : Nat → FetchResult) (k o : String),
      readStringParamOpt params "action" = some "getIssue" →
      readStringParamOpt params "owner" = some o →
      readStringParamOpt params "repo" = none →
      envCred env "GITHUB_TOKEN" = some k →
      (githubExecute params env oracle).1
        = .ok (errorEnvelope "GitHub" "getIssue" "owner and repo are required for getIssue")
      ∧ (githubExecute params env oracle).2.count = 0
      ∧ containsSub "owner and repo are required for getIssue" "owner" = true
      ∧ containsSub "owner and repo are required for getIssue" "repo" = true)
    ∧ (∀ (params : Params) (env : Env) (oracle : Nat → FetchResult) (k o r : String),
      readStringParamOpt params "action" = some "getIssue" →
      readStringParamOpt params "owner" = some o →
      readStringParamOpt params "repo" = some r →
      jsTruthy (params "number") = false →
      envCred env "GITHUB_TOKEN" = some k →
      (githubExecute params env oracle).1
        = .ok (errorEnvelope "GitHub" "getIssue" "number is required for getIssue")
      ∧ (githubExecute params env oracle).2.count = 0
      ∧ containsSub "number is required for getIssue" "number" = true)
    ∧ (∀ (params : Params) (env : Env) (oracle : Nat → FetchResult) (k : String),
      readStringParamOpt params "action" = some "createIssue" →
      readStringParamOpt params "owner" = none →
      envCred env "GITHUB_TOKEN" = some k →
      (githubExecute params env oracle).1
        = .ok (errorEnvelope "GitHub" "createIssue" "owner and repo are required for createIssue")
      ∧ (githubExecute params env oracle).2.count = 0
      ∧ containsSub "owner and repo are required for createIssue" "owner" = true
      ∧ containsSub "owner and repo are required for createIssue" "repo" = true)
    ∧ (∀ (params : Params) (env : Env) (oracle : Nat → FetchResult) (k o : String),
      readStringParamOpt params "action" = some "createIssue" →
      readStringParamOpt params "owner" = some o →
      readStringParamOpt params "repo" = none →
      envCred env "GITHUB_TOKEN" = some k →
      (githubExecute params env oracle).1
        = .ok (errorEnvelope "GitHub" "createIssue" "owner and repo are required for createIssue")
      ∧ (githubExecute params env oracle).2.count = 0
      ∧ containsSub "owner and repo are required for createIssue" "owner" = true
      ∧ containsSub "owner and repo are required for createIssue" "repo" = true)
    ∧ (∀ (params : Params) (env : Env) (oracle : Nat → FetchResult) (k o r : String),
      readStringParamOpt params "action" = some "createIssue" →
      readStringParamOpt params "owner" = some o →
      readStringParamOpt params "repo" = some r →
      readStringParamOpt params "title" = none →
      envCred env "GITHUB_TOKEN" = some k →
      (githubExecute params env oracle).1
        = .ok (errorEnvelope "GitHub" "createIssue" "title parameter is required")
      ∧ (githubExecute params env oracle).2.count = 0
      ∧ containsSub "title parameter is required" "title" = true)
    ∧ (∀ (params : Params) (env : Env) (oracle : Nat → FetchResult) (k : String),
      readStringParamOpt params "action" = some "listPRs" →
      readStringParamOpt params "owner" = none →
      envCred env "GITHUB_TOKEN" = some k →
      (githubExecute params env oracle).1
        = .ok (errorEnvelope "GitHub" "listPRs" "owner and repo are required for listPRs")
      ∧ (githubExecute params env oracle).2.count = 0
      ∧ containsSub "owner and repo are required for listPRs" "owner" = true
      ∧ containsSub "owner and repo are required for listPRs" "repo" = true)
    ∧ (∀ (params : Params) (env : Env) (oracle : Nat → FetchResult) (k o : String),
      readStringParamOpt params "action" = some "listPRs" →
      readStringParamOpt params "owner" = some o →
      readStringParamOpt params "repo" = none →
      envCred env "GITHUB_TOKEN" = some k →
      (githubExecute params env oracle).1
        = .ok (errorEnvelope "GitHub" "listPRs" "owner and repo are required for listPRs")
      ∧ (githubExecute params env oracle).2.count = 0
      ∧ containsSub "owner and repo are required for listPRs" "owner" = true
      ∧ containsSub "owner and repo are required for listPRs" "repo" = true)
    ∧ (∀ (params : Params) (env : Env) (oracle : Nat → FetchResult) (k : String),
      readStringParamOpt params "action" = some "getPR" →
      readStringParamOpt params "owner" = none →
      envCred env "GITHUB_TOKEN" = some k →
      (githubExecute params env oracle).1
        = .ok (errorEnvelope "GitHub" "getPR" "owner and repo are required for getPR")
      ∧ (githubExecute params env oracle).2.count = 0
      ∧ containsSub "owner and repo are required for getPR" "owner" = true
      ∧ containsSub "owner and repo are required for getPR" "repo" = true)
    ∧ (∀ (params : Params) (env : Env) (oracle : Nat → FetchResult) (k o : String),
      readStringParamOpt params "action" = some "getPR" →
      readStringParamOpt params "owner" = some o →
      readStringParamOpt params "repo" = none →
      envCred env "GITHUB_TOKEN" = some k →
      (githubExecute params env oracle).1
        = .ok (errorEnvelope "GitHub" "getPR" "owner and repo are required for getPR")
      ∧ (githubExecute params env oracle).2.count = 0
      ∧ containsSub "owner and repo are required for getPR" "owner" = true
      ∧ containsSub "owner and repo are required for getPR" "repo" = true)
    ∧ (∀ (params : Params) (env : Env) (oracle : Nat → FetchResult) (k o r : String),
      readStringParamOpt params "action" = some "getPR" →
      readStringParamOpt params "owner" = some o →
      readStringParamOpt params "repo" = some r →
      jsTruthy (params "number") = false →
      envCred env "GITHUB_TOKEN" = some k →
      (githubExecute params env oracle).1
        = .ok (errorEnvelope "GitHub" "getPR" "number is required for getPR")
      ∧ (githubExecute params env oracle).2.count = 0
      ∧ containsSub "number is required for getPR" "number" = true)
    ∧ (∀ (params : Params) (env : Env) (oracle : Nat → FetchResult) (k : String),
      readStringParamOpt params "action" = some "searchCode" →
      readStringParamOpt params "query" = none →
      envCred env "GITHUB_TOKEN" = some k →
      (githubExecute params env oracle).1
        = .ok (errorEnvelope "GitHub" "searchCode" "query parameter is required")
      ∧ (githubExecute params env oracle).2.count = 0
      ∧ containsSub "query parameter is required" "query" = true)
    ∧ (∀ (params : Params) (env : Env) (oracle : Nat → FetchResult) (k : String),
      readStringParamOpt params "action" = some "searchRepos" →
      readStringParamOpt params "query" = none →
      envCred env "GITHUB_TOKEN" = some k →
      (githubExecute params env oracle).1
        = .ok (errorEnvelope "GitHub" "searchRepos" "query parameter is required")
      ∧ (githubExecute params env oracle).2.count = 0
      ∧ containsSub "query parameter is required" "query" = true)
    ∧ (∀ (params : Params) (env : Env) (oracle : Nat → FetchResult) (k : String),
      readStringParamOpt params "action" = some "getIssue" →
      readStringParamOpt params "issueId" = none →
      envCred env "LINEAR_API_KEY" = some k →
      (linearExecute params env oracle).1
        = .ok (errorEnvelope "Linear" "getIssue" "issueId parameter is required")
      ∧ (linearExecute params env oracle).2.count = 0
      ∧ containsSub "issueId parameter is required" "issueId" = true)
    ∧ (∀ (params : Params) (env : Env) (oracle : Nat → FetchResult) (k : String),
      readStringParamOpt params "action" = some "createIssue" →
      readStringParamOpt params "teamId" = none →
      envCred env "LINEAR_API_KEY" = some k →
      (linearExecute params env oracle).1
        = .ok (errorEnvelope "Linear" "createIssue" "teamId parameter is required")
      ∧ (linearExecute params env oracle).2.count = 0
      ∧ containsSub "teamId parameter is required" "teamId" = true)
    ∧ (∀ (params : Params) (env : Env) (oracle : Nat → FetchResult) (k tid : String),
      readStringParamOpt params "action" = some "createIssue" →
      readStringParamOpt params "teamId" = some tid →
      readStringParamOpt params "title" = none →
      envCred env "LINEAR_API_KEY" = some k →
      (linearExecute params env oracle).1
        = .ok (errorEnvelope "Linear" "createIssue" "title parameter is required")
      ∧ (linearExecute params env oracle).2.count = 0
      ∧ containsSub "title parameter is required" "title" = true)
    ∧ (∀ (params : Params) (env : Env) (oracle : Nat → FetchResult) (k : String),
      readStringParamOpt params "action" = some "updateIssue" →
      readStringParamOpt params "issueId" = none →
      envCred env "LINEAR_API_KEY" = some k →
      (linearExecute params env oracle).1
        = .ok (errorEnvelope "Linear" "updateIssue" "issueId parameter is required")
      ∧ (linearExecute params env oracle).2.count = 0
      ∧ containsSub "issueId parameter is required" "issueId" = true)
    ∧ (∀ (params : Params) (env : Env) (oracle : Nat → FetchResult) (k : String),
      readStringParamOpt params "action" = some "searchIssues" →
      readStringParamOpt params "query" = none →
      envCred env "LINEAR_API_KEY" = some k →
      (linearExecute params env oracle).1
        = .ok (errorEnvelope "Linear" "searchIssues" "query parameter is required")
      ∧ (linearExecute params env oracle).2.count = 0
      ∧ containsSub "query parameter is required" "query" = true)
    ∧ (∀ (params : Params) (env : Env) (oracle : Nat → FetchResult) (k : String),
      readStringParamOpt params "action" = some "textToSpeech" →
      readStringParamOpt params "text" = none →
      envCred env "ELEVENLABS_API_KEY" = some k →
      (elevenlabsExecute params env oracle).1
        = .ok (errorEnvelope "ElevenLabs" "textToSpeech" "text parameter is required")
      ∧ (elevenlabsExecute params env oracle).2.count = 0
      ∧ containsSub "text parameter is required" "text" = true)
    ∧ (∀ (params : Params) (env : Env) (oracle : Nat → FetchResult) (k : String),
      readStringParamOpt params "action" = some "getVoice" →
      readStringParamOpt params "voiceId" = none →
      envCred env "ELEVENLABS_API_KEY" = some k →
      (elevenlabsExecute params env oracle).1
        = .ok (errorEnvelope "ElevenLabs" "getVoice" "voiceId parameter is required")
      ∧ (elevenlabsExecute params env oracle).2.count = 0
      ∧ containsSub "voiceId parameter is required" "voiceId" = true)
    ∧ (∀ (params : Params) (env : Env) (oracle : Nat → FetchResult) (k : String),
      readStringParamOpt params "action" = some "speechToSpeech" →
      readStringParamOpt params "audioUrl" = none →
      envCred env "ELEVENLABS_API_KEY" = some k →
      (elevenlabsExecute params env oracle).1
        = .ok (errorEnvelope "ElevenLabs" "speechToSpeech" "audioUrl parameter is required")
      ∧ (elevenlabsExecute params env oracle).2.count = 0
      ∧ containsSub "audioUrl parameter is required" "audioUrl" = true)
    ∧ (∀ (params : Params) (env : Env) (oracle : Nat → FetchResult) (k : String),
      readStringParamOpt params "action" = some "chat" →
      readStringParamOpt params "prompt" = none →
      envCred env "OPENAI_API_KEY" = some k →
      (openaiExecute params env oracle).1
        = .ok (errorEnvelope "OpenAI" "chat" "prompt parameter is required")
      ∧ (openaiExecute params env oracle).2.count = 0
      ∧ containsSub "prompt parameter is required" "prompt" = true)
    ∧ (∀ (params : Params) (env : Env) (oracle : Nat → FetchResult) (k : String),
      readStringParamOpt params "action" = some "embedding" →
      readStringParamOpt params "text" = none →
      envCred env "OPENAI_API_KEY" = some k →
      (openaiExecute params env oracle).1
        = .ok (errorEnvelope "OpenAI" "embedding" "text parameter is required")
      ∧ (openaiExecute params env oracle).2.count = 0
      ∧ containsSub "text parameter is required" "text" = true)
    ∧ (∀ (params : Params) (env : Env) (oracle : Nat → FetchResult) (k : String),
      readStringParamOpt params "action" = some "moderation" →
      readStringParamOpt params "text" = none →
      envCred env "OPENAI_API_KEY" = some k →
      (openaiExecute params env oracle).1
        = .ok (errorEnvelope "OpenAI" "moderation" "text parameter is required")
      ∧ (openaiExecute params env oracle).2.count = 0
      ∧ containsSub "text parameter is required" "text" = true)
    ∧ (∀ (params : Params) (env : Env) (oracle : Nat → FetchResult) (k : String),
      readStringParamOpt params "action" = some "transcribe" →
      readStringParamOpt params "audioUrl" = none →
      envCred env "OPENAI_API_KEY" = some k →
      (openaiExecute params env oracle).1
        = .ok (errorEnvelope "OpenAI" "transcribe" "audioUrl parameter is required")
      ∧ (openaiExecute params env oracle).2.count = 0
      ∧ containsSub "audioUrl parameter is required" "audioUrl" = true) := by
  refine ⟨?_, ?_, ?_, ?_, ?_, ?_, ?_, ?_, ?_, ?_, ?_, ?_, ?_, ?_, ?_, ?_, ?_, ?_, ?_, ?_, ?_, ?_, ?_, ?_, ?_, ?_, ?_, ?_, ?_⟩
  · intro params env oracle k hA hO hK
    rw [githubExecute_eq params env oracle "getRepo" k hA hK]
    unfold githubDispatch
    dsimp only
    rw [hO]
    exact ⟨rfl, rfl, by decide, by decide⟩
  · intro params env oracle k o hA hO hR hK
    rw [githubExecute_eq params env oracle "getRepo" k hA hK]
    unfold githubDispatch
    dsimp only
    rw [hO, hR]
    exact ⟨rfl, rfl, by decide, by decide⟩
  · intro params env oracle k hA hO hK
    rw [githubExecute_eq params env oracle "listIssues" k hA hK]
    unfold githubDispatch
    dsimp only
    rw [hO]
    exact ⟨rfl, rfl, by decide, by decide⟩
  · intro params env oracle k o hA hO hR hK
    rw [githubExecute_eq params env oracle "listIssues" k hA hK]
    unfold githubDispatch
    dsimp only
    rw [hO, hR]
    exact ⟨rfl, rfl, by decide, by decide⟩
  · intro params env oracle k hA hO hK
    rw [githubExecute_eq params env oracle "getIssue" k hA hK]
    unfold githubDispatch
    dsimp only
    rw [hO]
    exact ⟨rfl, rfl, by decide, by decide⟩
  · intro params env oracle k o hA hO hR hK
    rw [githubExecute_eq params env oracle "getIssue" k hA hK]
    unfold githubDispatch
    dsimp only
    rw [hO, hR]
    exact ⟨rfl, rfl, by decide, by decide⟩
  · intro params env oracle k o r hA hO hR hN hK
    rw [githubExecute_eq params env oracle "getIssue" k hA hK]
    unfold githubDispatch
    dsimp only
    rw [hO, hR, hN]
    exact ⟨rfl, rfl, by decide⟩
  · intro params env oracle k hA hO hK
    rw [githubExecute_eq params env oracle "createIssue" k hA hK]
    unfold githubDispatch
    dsimp only
    rw [hO]
    exact ⟨rfl, rfl, by decide, by decide⟩
  · intro params env oracle k o hA hO hR hK
    rw [githubExecute_eq params env oracle "createIssue" k hA hK]
    unfold githubDispatch
    dsimp only
    rw [hO, hR]
    exact ⟨rfl, rfl, by decide, by decide⟩
  · intro params env oracle k o r hA hO hR hT hK
    rw [githubExecute_eq params env oracle "createIssue" k hA hK]
    unfold githubDispatch
    dsimp only
    rw [hO, hR, readStringParamReq_of_none _ _ hT]
    exact ⟨rfl, rfl, by decide⟩
  · intro params env oracle k hA hO hK
    rw [githubExecute_eq params env oracle "listPRs" k hA hK]
    unfold githubDispatch
    dsimp only
    rw [hO]
    exact ⟨rfl, rfl, by decide, by decide⟩
  · intro params env oracle k o hA hO hR hK
    rw [githubExecute_eq params env oracle "listPRs" k hA hK]
    unfold githubDispatch
    dsimp only
    rw [hO, hR]
    exact ⟨rfl, rfl, by decide, by decide⟩
  · intro params env oracle k hA hO hK
    rw [githubExecute_eq params env oracle "getPR" k hA hK]
    unfold githubDispatch
    dsimp only
    rw [hO]
    exact ⟨rfl, rfl, by decide, by decide⟩
  · intro params env oracle k o hA hO hR hK
    rw [githubExecute_eq params env oracle "getPR" k hA hK]
    unfold githubDispatch
    dsimp only
    rw [hO, hR]
    exact ⟨rfl, rfl, by decide, by decide⟩
  · intro params env oracle k o r hA hO hR hN hK
    rw [githubExecute_eq params env oracle "getPR" k hA hK]
    unfold githubDispatch
    dsimp only
    rw [hO, hR, hN]
    exact ⟨rfl, rfl, by decide⟩
  · intro params env oracle k hA hQ hK
    rw [githubExecute_eq params env oracle "searchCode" k hA hK]
    unfold githubDispatch
    dsimp only
    rw [readStringParamReq_of_none _ _ hQ]
    exact ⟨rfl, rfl, by decide⟩
  · intro params env oracle k hA hQ hK
    rw [githubExecute_eq params env oracle "searchRepos" k hA hK]
    unfold githubDispatch
    dsimp only
    rw [readStringParamReq_of_none _ _ hQ]
    exact ⟨rfl, rfl, by decide⟩
  · intro params env oracle k hA hM hK
    rw [linearExecute_eq params env oracle "getIssue" k hA hK]
    unfold linearDispatch
    dsimp only
    rw [readStringParamReq_of_none _ _ hM]
    exact ⟨rfl, rfl, by decide⟩
  · intro params env oracle k hA hM hK
    rw [linearExecute_eq params env oracle "createIssue" k hA hK]
    unfold linearDispatch
    dsimp only
    rw [readStringParamReq_of_none _ _ hM]
    exact ⟨rfl, rfl, by decide⟩
  · intro params env oracle k tid hA hT hTi hK
    rw [linearExecute_eq params env oracle "createIssue" k hA hK]
    unfold linearDispatch
    dsimp only
    rw [readStringParamReq_of_opt _ _ _ hT, readStringParamReq_of_none _ _ hTi]
    exact ⟨rfl, rfl, by decide⟩
  · intro params env oracle k hA hM hK
    rw [linearExecute_eq params env oracle "updateIssue" k hA hK]
    unfold linearDispatch
    dsimp only
    rw [readStringParamReq_of_none _ _ hM]
    exact ⟨rfl, rfl, by decide⟩
  · intro params env oracle k hA hM hK
    rw [linearExecute_eq params env oracle "searchIssues" k hA hK]
    unfold linearDispatch
    dsimp only
    rw [readStringParamReq_of_none _ _ hM]
    exact ⟨rfl, rfl, by decide⟩
  · intro params env oracle k hA hM hK
    rw [elevenlabsExecute_eq params env oracle "textToSpeech" k hA hK]
    unfold elevenlabsDispatch
    dsimp only
    rw [readStringParamReq_of_none _ _ hM]
    exact ⟨rfl, rfl, by decide⟩
  · intro params env oracle k hA hM hK
    rw [elevenlabsExecute_eq params env oracle "getVoice" k hA hK]
    unfold elevenlabsDispatch
    dsimp only
    rw [readStringParamReq_of_none _ _ hM]
    exact ⟨rfl, rfl, by decide⟩
  · intro params env oracle k hA hM hK
    rw [elevenlabsExecute_eq params env oracle "speechToSpeech" k hA hK]
    unfold elevenlabsDispatch
    dsimp only
    rw [readStringParamReq_of_none _ _ hM]
    exact ⟨rfl, rfl, by decide⟩
  · intro params env oracle k hA hM hK
    rw [openaiExecute_eq params env oracle "chat" k hA hK]
    unfold openaiDispatch
    dsimp only
    rw [readStringParamReq_of_none _ _ hM]
    exact ⟨rfl, rfl, by decide⟩
  · intro params env oracle k hA hM hK
    rw [openaiExecute_eq params env oracle "embedding" k hA hK]
    unfold openaiDispatch
    dsimp only
    rw [readStringParamReq_of_none _ _ hM]
    exact ⟨rfl, rfl, by decide⟩
  · intro params env oracle k hA hM hK
    rw [openaiExecute_eq params env oracle "moderation" k hA hK]
    unfold openaiDispatch
    dsimp only
    rw [readStringParamReq_of_none _ _ hM]
    exact ⟨rfl, rfl, by decide⟩
  · intro params env oracle k hA hM hK
    rw [openaiExecute_eq params env oracle "transcribe" k hA hK]
    unfold openaiDispatch
    dsimp only
    rw [readStringParamReq_of_none _ _ hM]
    exact ⟨rfl, rfl, by decide⟩

/-- Witness for C5: GitHub `getRepo` with no `owner`. -/
theorem c5_missing_required_param_witness :
    (githubExecute (mkParams [("action", .str "getRepo"), ("repo", .str "r")])
        (envWith "GITHUB_TOKEN" "k") oracleDown).1
      = .ok (errorEnvelope "GitHub" "getRepo" "owner and repo are required for getRepo")
    ∧ (githubExecute (mkParams [("action", .str "getRepo"), ("repo", .str "r")])
        (envWith "GITHUB_TOKEN" "k") oracleDown).2.count = 0
    ∧ containsSub "owner and repo are required for getRepo" "owner" = true
    ∧ containsSub "owner and repo are required for getRepo" "repo" = true :=
  c5_missing_required_param.1 (mkParams [("action", .str "getRepo"), ("repo", .str "r")])
    (envWith "GITHUB_TOKEN" "k") oracleDown "k" rfl rfl rfl

/-! ### Claim C10 -/

theorem skipWs_cons (c : Char) (cs : List Char) (h : wsChar c = false) :
    skipWs (c :: cs) = c :: cs := by
  unfold skipWs
  rw [h]
  rfl

theorem parseValue_obj_badkey (k : Nat) (c : Char) (rest : List Char)
    (h1 : wsChar c = false) (h2 : c ≠ rbraceC) (h3 : c ≠ quoteC) :
    parseValue (Nat.succ k) (lbraceC :: c :: rest)
      = .error "Expected property name or end of object in JSON" := by
  unfold parseValue
  simp [skipWs_cons _ _ h1, h2, h3]

theorem jsonParse_fragment_badkey (f : String) (c : Char) (rest : List Char)
    (hd : f.data = c :: rest) (h1 : wsChar c = false) (h2 : c ≠ rbraceC) (h3 : c ≠ quoteC) :
    jsonParse ("\x7b" ++ f ++ "\x7d")
      = .error "Expected property name or end of object in JSON" := by
  unfold jsonParse
  have hbrace : ("\x7b").data = [lbraceC] := rfl
  have hdata : ("\x7b" ++ f ++ "\x7d").data = lbraceC :: c :: (rest ++ ("\x7d").data) := by
    simp only [data_append, hd, hbrace, List.singleton_append, List.cons_append,
      List.append_assoc, List.nil_append]
    rfl
  rw [hdata]
  rw [skipWs_cons _ _ (by decide)]
  rw [parseValue_obj_badkey _ _ _ h1 h2 h3]

theorem team_fragment_head (t : String) :
    ("team: \x7b id: \x7b eq: \x22" ++ t ++ "\x22 \x7d \x7d").data
      = 't' :: (("eam: \x7b id: \x7b eq: \x22").data ++ t.data ++ ("\x22 \x7d \x7d").data) := by
  have hP : ("team: \x7b id: \x7b eq: \x22").data
      = 't' :: ("eam: \x7b id: \x7b eq: \x22").data := rfl
  simp only [data_append, hP, List.cons_append, List.append_assoc]

theorem team_fragment_ne_empty (t : String) :
    ("team: \x7b id: \x7b eq: \x22" ++ t ++ "\x22 \x7d \x7d") ≠ "" := by
  intro h
  have h2 := congrArg String.data h
  rw [team_fragment_head] at h2
  simp at h2

theorem project_fragment_head (p : String) :
    ("project: \x7b id: \x7b eq: \x22" ++ p ++ "\x22 \x7d \x7d").data
      = 'p' :: (("roject: \x7b id: \x7b eq: \x22").data ++ p.data
          ++ ("\x22 \x7d \x7d").data) := by
  have hP : ("project: \x7b id: \x7b eq: \x22").data
      = 'p' :: ("roject: \x7b id: \x7b eq: \x22").data := rfl
  simp only [data_append, hP, List.cons_append, List.append_assoc]

theorem project_fragment_ne_empty (p : String) :
    ("project: \x7b id: \x7b eq: \x22" ++ p ++ "\x22 \x7d \x7d") ≠ "" := by
  intro h
  have h2 := congrArg String.data h
  rw [project_fragment_head] at h2
  simp at h2

/-- C10: for Linear `listIssues`, if the supplied `teamId` (first
conjunct) or `projectId` (second conjunct) contains a structural
character such as a double quote, the `JSON.parse` of the
string-interpolated filter fragment throws (the fragment's unquoted
keys are rejected), and the call returns an error envelope whose
details are exactly `(action, error)`, with zero network requests
made. -/
theorem c10_filter_interpolation_parse_throws :
    (∀ (params : Params) (env : Env) (oracle : Nat → FetchResult) (k t : String),
      readStringParamOpt params "action" = some "listIssues" →
      readStringParamOpt params "teamId" = some t →
      readStringParamOpt params "projectId" = none →
      envCred env "LINEAR_API_KEY" = some k →
      containsSub t "\x22" = true →
      (linearExecute params env oracle).1
        = .ok ⟨[⟨"text", "Linear" ++ " error: "
              ++ "Expected property name or end of object in JSON"⟩],
            [("action", .str "listIssues"),
              ("error", .str "Expected property name or end of object in JSON")]⟩
      ∧ (linearExecute params env oracle).2.count = 0
      ∧ (linearExecute params env oracle).2.log = [])
    ∧ (∀ (params : Params) (env : Env) (oracle : Nat → FetchResult) (k p : String),
      readStringParamOpt params "action" = some "listIssues" →
      readStringParamOpt params "projectId" = some p →
      envCred env "LINEAR_API_KEY" = some k →
      containsSub p "\x22" = true →
      (linearExecute params env oracle).1
        = .ok ⟨[⟨"text", "Linear" ++ " error: "
              ++ "Expected property name or end of object in JSON"⟩],
            [("action", .str "listIssues"),
              ("error", .str "Expected property name or end of object in JSON")]⟩
      ∧ (linearExecute params env oracle).2.count = 0
      ∧ (linearExecute params env oracle).2.log = []) := by
  constructor
  · intro params env oracle k t hA hT hP hK _
    rw [linearExecute_eq params env oracle "listIssues" k hA hK]
    unfold linearDispatch
    dsimp only
    rw [hT, hP]
    unfold linearListIssuesFilter
    dsimp only
    rw [if_neg (team_fragment_ne_empty t)]
    rw [jsonParse_fragment_badkey _ 't' _ (team_fragment_head t) (by decide) (by decide)
      (by decide)]
    exact ⟨rfl, rfl, rfl⟩
  · intro params env oracle k p hA hP hK _
    rw [linearExecute_eq params env oracle "listIssues" k hA hK]
    unfold linearDispatch
    dsimp only
    rw [hP]
    unfold linearListIssuesFilter
    dsimp only
    rw [if_neg (project_fragment_ne_empty p)]
    rw [jsonParse_fragment_badkey _ 'p' _ (project_fragment_head p) (by decide) (by decide)
      (by decide)]
    exact ⟨rfl, rfl, rfl⟩

/-- Witness for C10: a `teamId` containing a double quote. -/
theorem c10_filter_interpolation_parse_throws_witness :
    (linearExecute (mkParams [("action", .str "listIssues"), ("teamId", .str "T\x221")])
        (envWith "LINEAR_API_KEY" "k") oracleOk).1
      = .ok ⟨[⟨"text", "Linear" ++ " error: "
            ++ "Expected property name or end of object in JSON"⟩],
          [("action", .str "listIssues"),
            ("error", .str "Expected property name or end of object in JSON")]⟩
    ∧ (linearExecute (mkParams [("action", .str "listIssues"), ("teamId", .str "T\x221")])
        (envWith "LINEAR_API_KEY" "k") oracleOk).2.count = 0
    ∧ (linearExecute (mkParams [("action", .str "listIssues"), ("teamId", .str "T\x221")])
        (envWith "LINEAR_API_KEY" "k") oracleOk).2.log = [] :=
  c10_filter_interpolation_parse_throws.1
    (mkParams [("action", .str "listIssues"), ("teamId", .str "T\x221")])
    (envWith "LINEAR_API_KEY" "k") oracleOk "k" "T\x221" rfl rfl rfl rfl (by decide)

/-! ### Claim C9 -/

/-- C9: in the Linear `listIssues` filter construction, when both
`teamId` and `projectId` are supplied (non-empty), the resulting filter
fragment is exactly the `projectId` condition — the `projectId`
assignment overwrites the `teamId` one, so the fragment equals the one
built with no `teamId` at all: the `teamId` is silently ignored. -/
theorem c9_projectId_overwrites_teamId (t p : String) :
    linearListIssuesFilter (some t) (some p)
        = "project: \x7b id: \x7b eq: \x22" ++ p ++ "\x22 \x7d \x7d"
      ∧ linearListIssuesFilter (some t) (some p) = linearListIssuesFilter none (some p) :=
  ⟨rfl, rfl⟩

end OpenClaw
